import Mathlib

/-!
Verification of the barebox-bringup repository's console/bootstrap core.

The definitions below are a shallow embedding of the Python sources:
  * `src/strategy-sdmux.py`            (namespace `SDMux`)
  * `src/examples/strategy-bootstrap.py` (namespace `BStrap`)
  * `src/barebox_bringup/cli.py`       (namespace `Cli`)
Hardware drivers, the labgrid session and the coordinator are external
collaborators; their calls are modelled as explicit `HwAction`s recorded in a
trace, with a failure oracle `fails : HwAction -> Bool` standing for the
possibility that any individual driver call raises an exception.
-/

/-- Capabilities (labgrid driver bindings) named by the two strategies:
`power`, `console`, `sdmux`, `storage` (SD-mux strategy, strategy-sdmux.py
lines 56-61), `usbloader` (bootstrap strategy, strategy-bootstrap.py lines
52-56) and the barebox shell driver referenced as `self.barebox` in the
`barebox` branch of both strategies. -/
inductive Cap : Type
  | power
  | console
  | sdmux
  | storage
  | usbloader
  | barebox
  deriving DecidableEq, Repr

/-- SD-mux modes passed to `self.sdmux.set_mode` : "host" or "dut". -/
inductive MuxMode : Type
  | host
  | dut
  deriving DecidableEq, Repr

/-- One hardware side effect performed by a strategy: driver
activation/deactivation, power control, mux switching, image writing
(`self.storage.write_image(filename, seek, skip)`) or USB loading
(`self.usbloader.load(path)`). -/
inductive HwAction : Type
  | activate (c : Cap)
  | deactivate (c : Cap)
  | powerOff
  | powerCycle
  | setMode (m : MuxMode)
  | writeImage (filename : String) (seek : Option Nat) (skip : Option Nat)
  | load (path : String)
  deriving DecidableEq, Repr

/-- Errors a transition can end in: `StrategyError` for an invalid target
(`cannot transition to unknown`), `StrategyError("No images defined in
config")` (strategy-sdmux.py line 125), the `IndexError` that
`list(images.keys())[0]` raises on an empty image dict
(strategy-bootstrap.py line 104), or an exception raised by one of the
hardware driver calls. -/
inductive StratErr : Type
  | invalidTarget
  | noImages
  | indexError
  | actionFailed (a : HwAction)
  deriving DecidableEq, Repr

/-- Result of one (possibly compound) `transition` call: whether it raised,
the strategy object's state after the call (Python attribute mutations
survive an exception), and the trace of hardware actions that completed. -/
structure TResult (σ : Type) : Type where
  res : Except StratErr Unit
  state : σ
  trace : List HwAction
  deriving Repr

/-- Sequencing: run the continuation only when the first part did not raise;
an exception propagates, keeping the state and trace accumulated so far. -/
def TResult.andThen {σ : Type} (r : TResult σ) (k : σ → TResult σ) : TResult σ :=
  match r.res with
  | .error e => ⟨.error e, r.state, r.trace⟩
  | .ok _ =>
    let r2 := k r.state
    ⟨r2.res, r2.state, r.trace ++ r2.trace⟩

/-- Perform one hardware driver call: if the failure oracle says this call
raises, the exception propagates (the call is not recorded as completed);
otherwise the action is appended to the trace. -/
def act {σ : Type} (fails : HwAction → Bool) (s : σ) (a : HwAction) : TResult σ :=
  if fails a then ⟨.error (.actionFailed a), s, []⟩ else ⟨.ok (), s, [a]⟩

/-- The failure oracle of a normal run: no driver call raises. -/
def noFail : HwAction → Bool := fun _ => false

/-- Did this transition call raise (propagate an exception)? -/
def TResult.raised {σ : Type} (r : TResult σ) : Bool :=
  match r.res with
  | .error _ => true
  | .ok _ => false

@[simp] theorem TResult.raised_mk_error {σ : Type} (e : StratErr) (s : σ) (tr : List HwAction) :
    TResult.raised ⟨.error e, s, tr⟩ = true := rfl

@[simp] theorem TResult.raised_mk_ok {σ : Type} (s : σ) (tr : List HwAction) :
    TResult.raised ⟨.ok (), s, tr⟩ = false := rfl

theorem TResult.andThen_of_raised {σ : Type} {r : TResult σ} (k : σ → TResult σ)
    (h : r.raised = true) : r.andThen k = ⟨r.res, r.state, r.trace⟩ := by
  unfold TResult.raised at h
  unfold TResult.andThen
  cases hr : r.res with
  | error e => simp [hr]
  | ok u => rw [hr] at h; simp at h

theorem TResult.andThen_of_ok {σ : Type} {r : TResult σ} (k : σ → TResult σ)
    (h : r.raised = false) :
    r.andThen k = ⟨(k r.state).res, (k r.state).state, r.trace ++ (k r.state).trace⟩ := by
  unfold TResult.raised at h
  unfold TResult.andThen
  cases hr : r.res with
  | error e => rw [hr] at h; simp at h
  | ok u => simp [hr]

theorem act_of_fails {σ : Type} {fails : HwAction → Bool} {a : HwAction} (s : σ)
    (h : fails a = true) : act fails s a = ⟨.error (.actionFailed a), s, []⟩ := by
  unfold act; rw [h]; simp

theorem act_of_succ {σ : Type} {fails : HwAction → Bool} {a : HwAction} (s : σ)
    (h : fails a = false) : act fails s a = ⟨.ok (), s, [a]⟩ := by
  unfold act; rw [h]; simp

@[simp] theorem act_state {σ : Type} (fails : HwAction → Bool) (s : σ) (a : HwAction) :
    (act fails s a).state = s := by
  unfold act; split <;> rfl

/-- Per-image attributes from the config's `image-config` section
(`image_params.get('seek')` / `image_params.get('skip')`,
strategy-sdmux.py lines 131-134). -/
structure ImageParams : Type where
  seek : Option Nat
  skip : Option Nat
  deriving DecidableEq, Repr

/-- The slice of `self.target.env.config` the strategies read:
`get_option('no_write')` (absent modelled as `false`, matching the
`except (AttributeError, KeyError)` fallback at strategy-sdmux.py lines
114-118), `get_images()` as an ordered name/resolved-path association list
(so `list(images.keys())[0]` is the head and `get_image_path(name)` the
associated path), and the `image-config` mapping. -/
structure Config : Type where
  no_write : Bool
  images : List (String × String)
  image_config : List (String × ImageParams)
  deriving Repr

namespace SDMux

/-- States of the SD-mux strategy (`SDMuxStatus`, strategy-sdmux.py
lines 22-26). -/
inductive SDMuxStatus : Type
  | unknown
  | off
  | on
  | barebox
  deriving DecidableEq, Repr

/-- Mutable attributes of an `SDMuxStrategy` object: `status` (line 63) and
the one-shot `bootstrap_done` flag (line 64). -/
structure SDMuxState : Type where
  status : SDMuxStatus
  bootstrap_done : Bool
  deriving DecidableEq, Repr

/-- Initial strategy state: `status = unknown`, `bootstrap_done = False`. -/
def initState : SDMuxState := ⟨.unknown, false⟩

/-- Body of the `off` branch (strategy-sdmux.py lines 93-101) followed by
the `self.status = status` assignment at line 179: activate sdmux, switch
to dut mode, deactivate console, activate power, power off. -/
def offBody (fails : HwAction → Bool) (s : SDMuxState) : TResult SDMuxState :=
  (act fails s (.activate .sdmux)).andThen fun s1 =>
  (act fails s1 (.setMode .dut)).andThen fun s2 =>
  (act fails s2 (.deactivate .console)).andThen fun s3 =>
  (act fails s3 (.activate .power)).andThen fun s4 =>
  (act fails s4 .powerOff).andThen fun s5 =>
  ⟨.ok (), { s5 with status := .off }, []⟩

/-- The inner call `self.transition(SDMuxStatus.off)` (line 108): the full
dispatch for target `off`, i.e. the idempotence skip of lines 89-91
specialised to `off`, else the `off` branch body. -/
def dispatchOff (fails : HwAction → Bool) (s : SDMuxState) : TResult SDMuxState :=
  if s.status = .off then ⟨.ok (), s, []⟩ else offBody fails s

/-- Write path of the `on` branch (lines 121-156): take the first image of
the config (raising `StrategyError` on an empty image dict, lines 123-125)
and its `seek`/`skip` attributes from `image-config` (131-134), activate
the sdmux and storage drivers (137-138), switch the mux to host mode
(141), write the image (143-150), switch the mux back to dut mode (153)
and mark `bootstrap_done = True` (156). -/
def onWritePhase (cfg : Config) (fails : HwAction → Bool) (s : SDMuxState) : TResult SDMuxState :=
  match cfg.images with
  | [] => ⟨.error .noImages, s, []⟩
  | (image_name, image_path) :: _ =>
    let image_params := (List.lookup image_name cfg.image_config).getD ⟨none, none⟩
    (act fails s (.activate .sdmux)).andThen fun s3 =>
    (act fails s3 (.activate .storage)).andThen fun s4 =>
    (act fails s4 (.setMode .host)).andThen fun s5 =>
    (act fails s5 (.writeImage image_path image_params.seek image_params.skip)).andThen fun s6 =>
    (act fails s6 (.setMode .dut)).andThen fun s7 =>
    ⟨.ok (), { s7 with bootstrap_done := true }, []⟩

/-- No-write path of the `on` branch (lines 157-165): just ensure the SD
card is in dut mode; when `--no-write` forced the skip, mark
`bootstrap_done = True` so later transitions never write (163-165). -/
def onDutPhase (cfg : Config) (fails : HwAction → Bool) (s : SDMuxState) : TResult SDMuxState :=
  (act fails s (.activate .sdmux)).andThen fun s3 =>
  (act fails s3 (.setMode .dut)).andThen fun s4 =>
  ⟨.ok (), if cfg.no_write && !s4.bootstrap_done then { s4 with bootstrap_done := true } else s4, []⟩

/-- Tail of the `on` branch: `power.cycle()` to boot from SD (line 168)
followed by the `self.status = status` assignment of line 179. -/
def onFinish (fails : HwAction → Bool) (s : SDMuxState) : TResult SDMuxState :=
  (act fails s .powerCycle).andThen fun s9 =>
  ⟨.ok (), { s9 with status := .on }, []⟩

/-- Body of the `on` branch (lines 103-168) followed by line 179.
Order as in the source: recurse to `off` when not already off (107-108),
activate console (111), read `no_write` (113-118), then either the write
path (`onWritePhase`, guarded by `not self.bootstrap_done and not
no_write` at line 121) or the no-write path (`onDutPhase`), then
`power.cycle()` and the status assignment (`onFinish`). -/
def onBody (cfg : Config) (fails : HwAction → Bool) (s : SDMuxState) : TResult SDMuxState :=
  (if s.status ≠ .off then dispatchOff fails s else ⟨.ok (), s, []⟩).andThen fun s1 =>
  (act fails s1 (.activate .console)).andThen fun s2 =>
  (if !s2.bootstrap_done && !cfg.no_write then onWritePhase cfg fails s2
   else onDutPhase cfg fails s2).andThen fun s8 =>
  onFinish fails s8

/-- The inner call `self.transition(SDMuxStatus.on)` (line 171): full
dispatch for target `on`. -/
def dispatchOn (cfg : Config) (fails : HwAction → Bool) (s : SDMuxState) : TResult SDMuxState :=
  if s.status = .on then ⟨.ok (), s, []⟩ else onBody cfg fails s

/-- Body of the `barebox` branch (lines 170-173) followed by line 179:
recurse to `on`, then activate the barebox shell driver. -/
def bareboxBody (cfg : Config) (fails : HwAction → Bool) (s : SDMuxState) : TResult SDMuxState :=
  (dispatchOn cfg fails s).andThen fun s1 =>
  (act fails s1 (.activate .barebox)).andThen fun s2 =>
  ⟨.ok (), { s2 with status := .barebox }, []⟩

/-- `SDMuxStrategy.transition` (strategy-sdmux.py lines 69-179) with the
recursion of the compound branches unrolled into the per-target bodies
above.  Dispatch order follows the source: target `unknown` raises a
`StrategyError` (86-87); a target equal to the current status is a logged
skip performing nothing (89-91); otherwise the target's branch runs and
`self.status = status` is executed only after the whole branch completed
(179).  The final `else` of lines 174-177 is unreachable because the four
enum members are all handled. -/
def transition (cfg : Config) (fails : HwAction → Bool) (s : SDMuxState)
    (target : SDMuxStatus) : TResult SDMuxState :=
  match target with
  | .unknown => ⟨.error .invalidTarget, s, []⟩
  | .off => if s.status = .off then ⟨.ok (), s, []⟩ else offBody fails s
  | .on => if s.status = .on then ⟨.ok (), s, []⟩ else onBody cfg fails s
  | .barebox => if s.status = .barebox then ⟨.ok (), s, []⟩ else bareboxBody cfg fails s

/-- `SDMuxStrategy.force` (lines 181-206): only `barebox` has a force rule;
it activates the console, sets `bootstrap_done = True` and assigns the
status directly. -/
def force (fails : HwAction → Bool) (s : SDMuxState) (target : SDMuxStatus) : TResult SDMuxState :=
  match target with
  | .barebox =>
    (act fails s (.activate .console)).andThen fun s1 =>
    ⟨.ok (), { s1 with bootstrap_done := true, status := .barebox }, []⟩
  | _ => ⟨.error .invalidTarget, s, []⟩

/-- Run a sequence of `transition` calls in one process: each call starts
from the state the previous call left behind (even when that call raised),
and the hardware traces concatenate. -/
def runSeq (cfg : Config) (fails : HwAction → Bool) (s : SDMuxState) :
    List SDMuxStatus → SDMuxState × List HwAction
  | [] => (s, [])
  | t :: ts =>
    let r := transition cfg fails s t
    let rest := runSeq cfg fails r.state ts
    (rest.1, r.trace ++ rest.2)

end SDMux

/-- Is an action an invocation of `storage.write_image`? -/
def isWrite : HwAction → Bool
  | .writeImage _ _ _ => true
  | _ => false

/-- Number of `storage.write_image` invocations in a trace. -/
def writeCount (tr : List HwAction) : Nat := (tr.filter isWrite).length

namespace BStrap

/-- States of the bootstrap strategy (`BootstrapStatus`,
strategy-bootstrap.py lines 17-21). -/
inductive BootstrapStatus : Type
  | unknown
  | off
  | on
  | barebox
  deriving DecidableEq, Repr

/-- Mutable attributes of a `BootstrapStrategy` object: `status` (line 58)
and `bootstrap_done` (line 59; declared but never read or written by
`transition`). -/
structure BootstrapState : Type where
  status : BootstrapStatus
  bootstrap_done : Bool
  deriving DecidableEq, Repr

/-- Initial strategy state: `status = unknown`, `bootstrap_done = False`. -/
def initState : BootstrapState := ⟨.unknown, false⟩

/-- Body of the `off` branch (strategy-bootstrap.py lines 88-92) followed by
the `self.status = status` assignment at line 120: deactivate console,
activate power, power off. -/
def offBody (fails : HwAction → Bool) (s : BootstrapState) : TResult BootstrapState :=
  (act fails s (.deactivate .console)).andThen fun s1 =>
  (act fails s1 (.activate .power)).andThen fun s2 =>
  (act fails s2 .powerOff).andThen fun s3 =>
  ⟨.ok (), { s3 with status := .off }, []⟩

/-- The inner call `self.transition(BootstrapStatus.off)` (line 95): full
dispatch for target `off` (idempotence skip of lines 84-86, else the `off`
body). -/
def dispatchOff (fails : HwAction → Bool) (s : BootstrapState) : TResult BootstrapState :=
  if s.status = .off then ⟨.ok (), s, []⟩ else offBody fails s

/-- Load part of the `on` branch (strategy-bootstrap.py lines 102-108)
followed by the `self.status = status` assignment of line 120: take the
first configured image (103-105, where an empty image dict makes
`list(images.keys())[0]` raise an `IndexError`), activate the loader and
load the image (107-108). -/
def loadPhase (cfg : Config) (fails : HwAction → Bool) (s : BootstrapState) : TResult BootstrapState :=
  match cfg.images with
  | [] => ⟨.error .indexError, s, []⟩
  | (_, image_path) :: _ =>
    (act fails s (.activate .usbloader)).andThen fun s4 =>
    (act fails s4 (.load image_path)).andThen fun s5 =>
    ⟨.ok (), { s5 with status := .on }, []⟩

/-- Body of the `on` branch (lines 94-108) followed by line 120: recurse to
`off` unconditionally (95), activate console (96), power cycle into
bootrom/recovery mode (99), then load the first configured image
(`loadPhase`). -/
def onBody (cfg : Config) (fails : HwAction → Bool) (s : BootstrapState) : TResult BootstrapState :=
  (dispatchOff fails s).andThen fun s1 =>
  (act fails s1 (.activate .console)).andThen fun s2 =>
  (act fails s2 .powerCycle).andThen fun s3 =>
  loadPhase cfg fails s3

/-- The inner call `self.transition(BootstrapStatus.on)` (line 111): full
dispatch for target `on`. -/
def dispatchOn (cfg : Config) (fails : HwAction → Bool) (s : BootstrapState) : TResult BootstrapState :=
  if s.status = .on then ⟨.ok (), s, []⟩ else onBody cfg fails s

/-- Body of the `barebox` branch (lines 110-113) followed by line 120.
Source line 110 reads `elif status == BootstrapStatus.barebox or` - a
Python syntax error (dangling `or`, missing colon) that makes the whole
module fail to import, so this branch can never execute as written.  The
body here is the branch's evident intent, recoverable from its own lines
111-113 and the identical branch of strategy-sdmux.py lines 170-173:
recurse to `on`, then activate the barebox shell driver. -/
def bareboxBody (cfg : Config) (fails : HwAction → Bool) (s : BootstrapState) : TResult BootstrapState :=
  (dispatchOn cfg fails s).andThen fun s1 =>
  (act fails s1 (.activate .barebox)).andThen fun s2 =>
  ⟨.ok (), { s2 with status := .barebox }, []⟩

/-- `BootstrapStrategy.transition` (strategy-bootstrap.py lines 64-120) with
the recursion unrolled into the per-target bodies above.  Dispatch order
follows the source: target `unknown` raises a `StrategyError` (81-82); a
target equal to the current status is a logged skip performing nothing
(84-86); otherwise the target's branch runs and `self.status = status` is
executed only after the whole branch completed (120). -/
def transition (cfg : Config) (fails : HwAction → Bool) (s : BootstrapState)
    (target : BootstrapStatus) : TResult BootstrapState :=
  match target with
  | .unknown => ⟨.error .invalidTarget, s, []⟩
  | .off => if s.status = .off then ⟨.ok (), s, []⟩ else offBody fails s
  | .on => if s.status = .on then ⟨.ok (), s, []⟩ else onBody cfg fails s
  | .barebox => if s.status = .barebox then ⟨.ok (), s, []⟩ else bareboxBody cfg fails s

/-- `BootstrapStrategy.force` (lines 122-144): only `barebox` has a force
rule; it activates the console and assigns the status directly. -/
def force (fails : HwAction → Bool) (s : BootstrapState) (target : BootstrapStatus) :
    TResult BootstrapState :=
  match target with
  | .barebox =>
    (act fails s (.activate .console)).andThen fun s1 =>
    ⟨.ok (), { s1 with status := .barebox }, []⟩
  | _ => ⟨.error .invalidTarget, s, []⟩

end BStrap

theorem TResult.andThen_raised_of_ok {σ : Type} {r : TResult σ} (k : σ → TResult σ)
    (h : r.raised = false) : (r.andThen k).raised = (k r.state).raised := by
  unfold TResult.raised at h ⊢
  unfold TResult.andThen
  cases hr : r.res with
  | error e => rw [hr] at h; simp at h
  | ok u => simp [hr]

theorem TResult.andThen_state_of_ok {σ : Type} {r : TResult σ} (k : σ → TResult σ)
    (h : r.raised = false) : (r.andThen k).state = (k r.state).state := by
  unfold TResult.raised at h
  unfold TResult.andThen
  cases hr : r.res with
  | error e => rw [hr] at h; simp at h
  | ok u => simp [hr]

theorem TResult.andThen_trace_of_ok {σ : Type} {r : TResult σ} (k : σ → TResult σ)
    (h : r.raised = false) : (r.andThen k).trace = r.trace ++ (k r.state).trace := by
  unfold TResult.raised at h
  unfold TResult.andThen
  cases hr : r.res with
  | error e => rw [hr] at h; simp at h
  | ok u => simp [hr]

theorem TResult.andThen_eq_of_raised {σ : Type} {r : TResult σ} (k : σ → TResult σ)
    (h : r.raised = true) : r.andThen k = r := by
  obtain ⟨res, st, tr⟩ := r
  cases res <;> simp_all [TResult.raised, TResult.andThen]

namespace SDMux

/-- Hardware actions of a completed `off` transition. -/
def offTraceList : List HwAction :=
  [.activate .sdmux, .setMode .dut, .deactivate .console, .activate .power, .powerOff]

theorem offBody_char (fails : HwAction → Bool) (s : SDMuxState) :
    offBody fails s = ⟨.ok (), { s with status := .off }, offTraceList⟩ ∨
    ((offBody fails s).raised = true ∧ (offBody fails s).state = s) := by
  unfold offBody act TResult.andThen
  repeat' split
  all_goals simp_all [TResult.raised, offTraceList]

theorem dispatchOff_char (fails : HwAction → Bool) (s : SDMuxState) :
    ((dispatchOff fails s).raised = false ∧
      (dispatchOff fails s).state = { s with status := SDMuxStatus.off }) ∨
    ((dispatchOff fails s).raised = true ∧ (dispatchOff fails s).state = s) := by
  unfold dispatchOff
  split
  · rename_i h
    left
    refine ⟨rfl, ?_⟩
    cases s
    simp_all
  · rcases offBody_char fails s with h | ⟨h1, h2⟩
    · left
      rw [h]
      exact ⟨rfl, rfl⟩
    · right
      exact ⟨h1, h2⟩

theorem onWritePhase_char (cfg : Config) (fails : HwAction → Bool) (s : SDMuxState) :
    ((onWritePhase cfg fails s).raised = false ∧
      (onWritePhase cfg fails s).state = { s with bootstrap_done := true }) ∨
    ((onWritePhase cfg fails s).raised = true ∧ (onWritePhase cfg fails s).state = s) := by
  unfold onWritePhase act TResult.andThen
  repeat' (first | split | simp_all [TResult.raised])

theorem onDutPhase_char (cfg : Config) (fails : HwAction → Bool) (s : SDMuxState) :
    ((onDutPhase cfg fails s).raised = false ∧
      ((onDutPhase cfg fails s).state = s ∨
        (onDutPhase cfg fails s).state = { s with bootstrap_done := true })) ∨
    ((onDutPhase cfg fails s).raised = true ∧ (onDutPhase cfg fails s).state = s) := by
  obtain ⟨st, d⟩ := s
  unfold onDutPhase act TResult.andThen
  cases d <;> cases hw : cfg.no_write <;>
    repeat' (first | split | simp_all [TResult.raised, hw])

end SDMux

namespace SDMux

theorem onFinish_char (fails : HwAction → Bool) (s : SDMuxState) :
    ((onFinish fails s).raised = false ∧
      (onFinish fails s).state = { s with status := SDMuxStatus.on }) ∨
    ((onFinish fails s).raised = true ∧ (onFinish fails s).state = s) := by
  unfold onFinish act TResult.andThen
  repeat' (first | split | simp_all [TResult.raised])

theorem onBody_char (cfg : Config) (fails : HwAction → Bool) (s : SDMuxState) :
    (((onBody cfg fails s).raised = false ∧
        (onBody cfg fails s).state.status = SDMuxStatus.on) ∨
      ((onBody cfg fails s).raised = true ∧
        ((onBody cfg fails s).state.status = s.status ∨
          (onBody cfg fails s).state.status = SDMuxStatus.off)))
    ∧ ((onBody cfg fails s).state.bootstrap_done = s.bootstrap_done ∨
        (onBody cfg fails s).state.bootstrap_done = true) := by
  have hpre : (if s.status ≠ SDMuxStatus.off then dispatchOff fails s else ⟨.ok (), s, []⟩)
      = dispatchOff fails s := by
    unfold dispatchOff
    by_cases h : s.status = SDMuxStatus.off <;> simp [h]
  unfold onBody
  rw [hpre]
  rcases dispatchOff_char fails s with ⟨hr1, hs1⟩ | ⟨hr1, hs1⟩
  · rw [TResult.andThen_raised_of_ok _ hr1, TResult.andThen_state_of_ok _ hr1]
    rw [hs1]
    by_cases hc : fails (.activate .console) = true
    · rw [act_of_fails _ hc, TResult.andThen_eq_of_raised _ (by simp)]
      simp_all
    · rw [act_of_succ _ (by simpa using hc)]
      rw [TResult.andThen_raised_of_ok _ (by simp), TResult.andThen_state_of_ok _ (by simp)]
      by_cases hg : (!s.bootstrap_done && !cfg.no_write) = true
      · rw [if_pos (by simpa using hg)]
        rcases onWritePhase_char cfg fails { s with status := SDMuxStatus.off } with
          ⟨hr3, hs3⟩ | ⟨hr3, hs3⟩
        · rw [TResult.andThen_raised_of_ok _ hr3, TResult.andThen_state_of_ok _ hr3, hs3]
          rcases onFinish_char fails
              { s with status := SDMuxStatus.off, bootstrap_done := true } with
            ⟨hr4, hs4⟩ | ⟨hr4, hs4⟩ <;> simp_all
        · rw [TResult.andThen_eq_of_raised _ hr3, hs3]
          simp_all
      · rw [if_neg (by simpa using hg)]
        rcases onDutPhase_char cfg fails { s with status := SDMuxStatus.off } with
          ⟨hr3, hs3⟩ | ⟨hr3, hs3⟩
        · rcases hs3 with hs3 | hs3
          · rw [TResult.andThen_raised_of_ok _ hr3, TResult.andThen_state_of_ok _ hr3, hs3]
            rcases onFinish_char fails { s with status := SDMuxStatus.off } with
              ⟨hr4, hs4⟩ | ⟨hr4, hs4⟩ <;> simp_all
          · rw [TResult.andThen_raised_of_ok _ hr3, TResult.andThen_state_of_ok _ hr3, hs3]
            rcases onFinish_char fails
                { s with status := SDMuxStatus.off, bootstrap_done := true } with
              ⟨hr4, hs4⟩ | ⟨hr4, hs4⟩ <;> simp_all
        · rw [TResult.andThen_eq_of_raised _ hr3, hs3]
          simp_all
  · rw [TResult.andThen_eq_of_raised _ hr1, hs1]
    simp_all

end SDMux

namespace SDMux

theorem dispatchOn_char (cfg : Config) (fails : HwAction → Bool) (s : SDMuxState) :
    (((dispatchOn cfg fails s).raised = false ∧
        (dispatchOn cfg fails s).state.status = SDMuxStatus.on) ∨
      ((dispatchOn cfg fails s).raised = true ∧
        ((dispatchOn cfg fails s).state.status = s.status ∨
          (dispatchOn cfg fails s).state.status = SDMuxStatus.off)))
    ∧ ((dispatchOn cfg fails s).state.bootstrap_done = s.bootstrap_done ∨
        (dispatchOn cfg fails s).state.bootstrap_done = true) := by
  unfold dispatchOn
  split
  · rename_i h
    simp_all
  · exact onBody_char cfg fails s

theorem bareboxBody_char (cfg : Config) (fails : HwAction → Bool) (s : SDMuxState) :
    (((bareboxBody cfg fails s).raised = false ∧
        (bareboxBody cfg fails s).state.status = SDMuxStatus.barebox) ∨
      ((bareboxBody cfg fails s).raised = true ∧
        ((bareboxBody cfg fails s).state.status = s.status ∨
          (bareboxBody cfg fails s).state.status = SDMuxStatus.off ∨
          (bareboxBody cfg fails s).state.status = SDMuxStatus.on)))
    ∧ ((bareboxBody cfg fails s).state.bootstrap_done = s.bootstrap_done ∨
        (bareboxBody cfg fails s).state.bootstrap_done = true) := by
  unfold bareboxBody
  obtain ⟨hd1, hd2⟩ := dispatchOn_char cfg fails s
  rcases hd1 with ⟨hr1, hs1⟩ | ⟨hr1, hs1⟩
  · rw [TResult.andThen_raised_of_ok _ hr1, TResult.andThen_state_of_ok _ hr1]
    by_cases hb : fails (.activate .barebox) = true
    · rw [act_of_fails _ hb, TResult.andThen_eq_of_raised _ (by simp)]
      simp_all
    · rw [act_of_succ _ (by simpa using hb)]
      rw [TResult.andThen_raised_of_ok _ (by simp), TResult.andThen_state_of_ok _ (by simp)]
      simp_all
  · rw [TResult.andThen_eq_of_raised _ hr1]
    constructor
    · right
      refine ⟨hr1, ?_⟩
      tauto
    · exact hd2

theorem transition_char (cfg : Config) (fails : HwAction → Bool) (s : SDMuxState)
    (t : SDMuxStatus) :
    ((transition cfg fails s t).raised = true →
      ((transition cfg fails s t).state.status = s.status ∨
        (t = .on ∧ (transition cfg fails s t).state.status = .off) ∨
        (t = .barebox ∧ ((transition cfg fails s t).state.status = .off ∨
          (transition cfg fails s t).state.status = .on))))
    ∧ ((transition cfg fails s t).raised = false → (transition cfg fails s t).state.status = t)
    ∧ ((transition cfg fails s t).state.bootstrap_done = s.bootstrap_done ∨
        (transition cfg fails s t).state.bootstrap_done = true) := by
  cases t
  · simp [transition]
  · by_cases hss : s.status = SDMuxStatus.off
    · simp_all [transition]
    · rcases offBody_char fails s with h | ⟨h1, h2⟩ <;> simp_all [transition]
  · by_cases hss : s.status = SDMuxStatus.on
    · simp_all [transition]
    · obtain ⟨h1, h2⟩ := onBody_char cfg fails s
      rcases h1 with ⟨ha, hb⟩ | ⟨ha, hb⟩ <;> simp_all [transition]
  · by_cases hss : s.status = SDMuxStatus.barebox
    · simp_all [transition]
    · obtain ⟨h1, h2⟩ := bareboxBody_char cfg fails s
      rcases h1 with ⟨ha, hb⟩ | ⟨ha, hb⟩ <;> simp_all [transition]

end SDMux

@[simp] theorem writeCount_append (a b : List HwAction) :
    writeCount (a ++ b) = writeCount a + writeCount b := by
  simp [writeCount, List.filter_append]

namespace SDMux

theorem offBody_noFail (s : SDMuxState) :
    offBody noFail s = ⟨.ok (), { s with status := .off }, offTraceList⟩ := rfl

theorem transition_off_noFail (cfg : Config) (s : SDMuxState) :
    transition cfg noFail s .off =
      if s.status = SDMuxStatus.off then ⟨.ok (), s, []⟩
      else ⟨.ok (), { s with status := .off }, offTraceList⟩ := by
  unfold transition
  by_cases h : s.status = SDMuxStatus.off <;> simp [h, offBody_noFail]

/-- Hardware actions of the write path of an `on` transition. -/
def writeTraceList (p : String) (sk sp : Option Nat) : List HwAction :=
  [.activate .sdmux, .activate .storage, .setMode .host, .writeImage p sk sp, .setMode .dut]

theorem transition_on_noFail_write (cfg : Config) (n p : String)
    (rest : List (String × String)) (s : SDMuxState)
    (h1 : s.bootstrap_done = false) (h2 : cfg.no_write = false)
    (h3 : cfg.images = (n, p) :: rest) (h4 : s.status ≠ SDMuxStatus.on) :
    transition cfg noFail s .on =
      ⟨.ok (), ⟨.on, true⟩,
        (if s.status = SDMuxStatus.off then [] else offTraceList) ++
          ([.activate .console] ++
            (writeTraceList p ((List.lookup n cfg.image_config).getD ⟨none, none⟩).seek
                ((List.lookup n cfg.image_config).getD ⟨none, none⟩).skip ++
              [.powerCycle]))⟩ := by
  obtain ⟨st, d⟩ := s
  simp only at h1 h4
  subst h1
  by_cases hst : st = SDMuxStatus.off <;>
    simp [transition, onBody, dispatchOff, offBody, onWritePhase, onDutPhase, onFinish,
      act, TResult.andThen, noFail, h2, h3, hst, h4, writeTraceList, offTraceList]

theorem transition_on_noFail_dut (cfg : Config) (s : SDMuxState)
    (h1 : (s.bootstrap_done || cfg.no_write) = true) (h4 : s.status ≠ SDMuxStatus.on) :
    transition cfg noFail s .on =
      ⟨.ok (), ⟨.on, true⟩,
        (if s.status = SDMuxStatus.off then [] else offTraceList) ++
          ([.activate .console] ++ ([.activate .sdmux, .setMode .dut] ++ [.powerCycle]))⟩ := by
  obtain ⟨st, d⟩ := s
  simp only at h1 h4
  cases d <;> cases hw : cfg.no_write <;> simp [hw] at h1 <;>
    by_cases hst : st = SDMuxStatus.off <;>
    simp_all [transition, onBody, dispatchOff, offBody, onWritePhase, onDutPhase, onFinish,
      act, TResult.andThen, noFail, hst, h4, offTraceList]

theorem transition_on_noFail_noImages (cfg : Config) (s : SDMuxState)
    (h1 : s.bootstrap_done = false) (h2 : cfg.no_write = false)
    (h3 : cfg.images = []) (h4 : s.status ≠ SDMuxStatus.on) :
    transition cfg noFail s .on =
      ⟨.error .noImages, ⟨.off, false⟩,
        (if s.status = SDMuxStatus.off then [] else offTraceList) ++ [.activate .console]⟩ := by
  obtain ⟨st, d⟩ := s
  simp only at h1 h4
  subst h1
  by_cases hst : st = SDMuxStatus.off <;>
    simp [transition, onBody, dispatchOff, offBody, onWritePhase, onDutPhase, onFinish,
      act, TResult.andThen, noFail, h2, h3, hst, h4, offTraceList]

end SDMux

namespace SDMux

@[simp] theorem writeCount_nil : writeCount [] = 0 := rfl

@[simp] theorem writeCount_cons (a : HwAction) (tr : List HwAction) :
    writeCount (a :: tr) = (if isWrite a = true then 1 else 0) + writeCount tr := by
  by_cases h : isWrite a = true <;> simp [writeCount, List.filter_cons, h, Nat.add_comm]

@[simp] theorem writeCount_offTraceList : writeCount offTraceList = 0 := rfl

@[simp] theorem writeCount_writeTraceList (p : String) (sk sp : Option Nat) :
    writeCount (writeTraceList p sk sp) = 1 := rfl

/-- Potential used to bound the number of writes: one unit is available
until `bootstrap_done` is set. -/
def donePot (s : SDMuxState) : Nat := if s.bootstrap_done then 1 else 0

theorem transition_on_noFail_writes (cfg : Config) (s : SDMuxState) :
    writeCount (transition cfg noFail s .on).trace + donePot s
      ≤ donePot (transition cfg noFail s .on).state := by
  by_cases h4 : s.status = SDMuxStatus.on
  · simp [transition, h4, donePot]
  · by_cases hd : s.bootstrap_done = true
    · rw [transition_on_noFail_dut cfg s (by simp [hd]) h4]
      by_cases hst : s.status = SDMuxStatus.off <;>
        simp [hst, donePot, hd, isWrite]
    · by_cases hw : cfg.no_write = true
      · rw [transition_on_noFail_dut cfg s (by simp [hw]) h4]
        by_cases hst : s.status = SDMuxStatus.off <;>
          simp [hst, donePot, isWrite, Bool.eq_false_iff.mpr hd]
      · cases h3 : cfg.images with
        | nil =>
          rw [transition_on_noFail_noImages cfg s (by simpa using hd) (by simpa using hw) h3 h4]
          by_cases hst : s.status = SDMuxStatus.off <;>
            simp [hst, donePot, isWrite, Bool.eq_false_iff.mpr hd]
        | cons q rest =>
          obtain ⟨n, p⟩ := q
          rw [transition_on_noFail_write cfg n p rest s (by simpa using hd)
            (by simpa using hw) h3 h4]
          by_cases hst : s.status = SDMuxStatus.off <;>
            simp [hst, donePot, isWrite, Bool.eq_false_iff.mpr hd]

theorem transition_barebox_noFail_writes (cfg : Config) (s : SDMuxState) :
    writeCount (transition cfg noFail s .barebox).trace + donePot s
      ≤ donePot (transition cfg noFail s .barebox).state := by
  by_cases h4 : s.status = SDMuxStatus.barebox
  · simp [transition, h4, donePot]
  · have hdisp : dispatchOn cfg noFail s = transition cfg noFail s .on := rfl
    unfold transition bareboxBody
    rw [if_neg h4, hdisp]
    by_cases hr : (transition cfg noFail s .on).raised = true
    · rw [TResult.andThen_eq_of_raised _ hr]
      exact transition_on_noFail_writes cfg s
    · rw [TResult.andThen_trace_of_ok _ (by simpa using hr)]
      rw [TResult.andThen_state_of_ok _ (by simpa using hr)]
      have hk : ∀ X : SDMuxState, ((act noFail X (.activate .barebox)).andThen fun s2 =>
          (⟨.ok (), { s2 with status := SDMuxStatus.barebox }, []⟩ : TResult SDMuxState))
          = ⟨.ok (), { X with status := SDMuxStatus.barebox }, [.activate .barebox]⟩ :=
        fun X => rfl
      rw [hk]
      have hmain := transition_on_noFail_writes cfg s
      simp only [writeCount_append, writeCount_cons, writeCount_nil, isWrite, donePot]
        at hmain ⊢
      split_ifs at hmain ⊢ <;> simp_all

theorem transition_noFail_writes (cfg : Config) (s : SDMuxState) (t : SDMuxStatus) :
    writeCount (transition cfg noFail s t).trace + donePot s
      ≤ donePot ((transition cfg noFail s t).state) := by
  cases t
  · simp [transition, donePot, writeCount]
  · rw [transition_off_noFail]
    by_cases h : s.status = SDMuxStatus.off <;> simp [h, donePot]
  · exact transition_on_noFail_writes cfg s
  · exact transition_barebox_noFail_writes cfg s

theorem runSeq_writes_pot (cfg : Config) (ts : List SDMuxStatus) :
    ∀ s : SDMuxState, writeCount (runSeq cfg noFail s ts).2 + donePot s
      ≤ donePot (runSeq cfg noFail s ts).1 := by
  induction ts with
  | nil => intro s; simp [runSeq]
  | cons t ts ih =>
    intro s
    simp only [runSeq, writeCount_append]
    have h1 := transition_noFail_writes cfg s t
    have h2 := ih (transition cfg noFail s t).state
    omega

theorem donePot_le_one (s : SDMuxState) : donePot s ≤ 1 := by
  unfold donePot
  split <;> omega

end SDMux

namespace BStrap

/-- Hardware actions of a completed `off` transition of the bootstrap
strategy. -/
def offTraceList : List HwAction :=
  [.deactivate .console, .activate .power, .powerOff]

theorem bs_offBody_char (fails : HwAction → Bool) (s : BootstrapState) :
    offBody fails s = ⟨.ok (), { s with status := .off }, offTraceList⟩ ∨
    ((offBody fails s).raised = true ∧ (offBody fails s).state = s) := by
  unfold offBody act TResult.andThen
  repeat' (first | split | simp_all [TResult.raised, offTraceList])

theorem bs_dispatchOff_char (fails : HwAction → Bool) (s : BootstrapState) :
    ((dispatchOff fails s).raised = false ∧
      (dispatchOff fails s).state = { s with status := BootstrapStatus.off }) ∨
    ((dispatchOff fails s).raised = true ∧ (dispatchOff fails s).state = s) := by
  unfold dispatchOff
  split
  · rename_i h
    left
    refine ⟨rfl, ?_⟩
    cases s
    simp_all
  · rcases bs_offBody_char fails s with h | ⟨h1, h2⟩
    · left
      rw [h]
      exact ⟨rfl, rfl⟩
    · right
      exact ⟨h1, h2⟩

theorem loadPhase_char (cfg : Config) (fails : HwAction → Bool) (s : BootstrapState) :
    ((loadPhase cfg fails s).raised = false ∧
      (loadPhase cfg fails s).state = { s with status := BootstrapStatus.on }) ∨
    ((loadPhase cfg fails s).raised = true ∧ (loadPhase cfg fails s).state = s) := by
  unfold loadPhase act TResult.andThen
  repeat' (first | split | simp_all [TResult.raised])

theorem bs_onBody_char (cfg : Config) (fails : HwAction → Bool) (s : BootstrapState) :
    (((onBody cfg fails s).raised = false ∧
        (onBody cfg fails s).state.status = BootstrapStatus.on) ∨
      ((onBody cfg fails s).raised = true ∧
        ((onBody cfg fails s).state.status = s.status ∨
          (onBody cfg fails s).state.status = BootstrapStatus.off)))
    ∧ ((onBody cfg fails s).state.bootstrap_done = s.bootstrap_done) := by
  unfold onBody
  rcases bs_dispatchOff_char fails s with ⟨hr1, hs1⟩ | ⟨hr1, hs1⟩
  · rw [TResult.andThen_raised_of_ok _ hr1, TResult.andThen_state_of_ok _ hr1, hs1]
    by_cases hc : fails (.activate .console) = true
    · rw [act_of_fails _ hc, TResult.andThen_eq_of_raised _ (by simp)]
      simp_all
    · rw [act_of_succ _ (by simpa using hc)]
      rw [TResult.andThen_raised_of_ok _ (by simp), TResult.andThen_state_of_ok _ (by simp)]
      by_cases hy : fails HwAction.powerCycle = true
      · rw [act_of_fails _ hy, TResult.andThen_eq_of_raised _ (by simp)]
        simp_all
      · rw [act_of_succ _ (by simpa using hy)]
        rw [TResult.andThen_raised_of_ok _ (by simp), TResult.andThen_state_of_ok _ (by simp)]
        rcases loadPhase_char cfg fails { s with status := BootstrapStatus.off } with
          ⟨hr3, hs3⟩ | ⟨hr3, hs3⟩ <;> simp_all
  · rw [TResult.andThen_eq_of_raised _ hr1, hs1]
    simp_all

theorem bs_transition_char (cfg : Config) (fails : HwAction → Bool) (s : BootstrapState)
    (t : BootstrapStatus) :
    ((transition cfg fails s t).raised = true →
      ((transition cfg fails s t).state.status = s.status ∨
        (t = .on ∧ (transition cfg fails s t).state.status = .off) ∨
        (t = .barebox ∧ ((transition cfg fails s t).state.status = .off ∨
          (transition cfg fails s t).state.status = .on))))
    ∧ ((transition cfg fails s t).raised = false → (transition cfg fails s t).state.status = t)
    ∧ ((transition cfg fails s t).state.bootstrap_done = s.bootstrap_done) := by
  cases t
  · simp [transition]
  · by_cases hss : s.status = BootstrapStatus.off
    · simp_all [transition]
    · rcases bs_offBody_char fails s with h | ⟨h1, h2⟩ <;> simp_all [transition]
  · by_cases hss : s.status = BootstrapStatus.on
    · simp_all [transition]
    · obtain ⟨h1, h2⟩ := bs_onBody_char cfg fails s
      rcases h1 with ⟨ha, hb⟩ | ⟨ha, hb⟩ <;> simp_all [transition]
  · by_cases hss : s.status = BootstrapStatus.barebox
    · simp_all [transition]
    · have hdisp : dispatchOn cfg fails s = transition cfg fails s .on := by
        unfold dispatchOn transition
        rfl
      unfold transition bareboxBody
      rw [if_neg hss]
      obtain ⟨hd1, hd2⟩ := bs_onBody_char cfg fails s
      by_cases hso : s.status = BootstrapStatus.on
      · unfold dispatchOn
        rw [if_pos hso]
        by_cases hb : fails (.activate .barebox) = true
        · rw [TResult.andThen_raised_of_ok _ (by simp), TResult.andThen_state_of_ok _ (by simp)]
          rw [act_of_fails _ hb, TResult.andThen_eq_of_raised _ (by simp)]
          simp_all
        · rw [TResult.andThen_raised_of_ok _ (by simp), TResult.andThen_state_of_ok _ (by simp)]
          rw [act_of_succ _ (by simpa using hb)]
          rw [TResult.andThen_raised_of_ok _ (by simp), TResult.andThen_state_of_ok _ (by simp)]
          simp_all
      · unfold dispatchOn
        rw [if_neg hso]
        rcases hd1 with ⟨ha, hs1⟩ | ⟨ha, hs1⟩
        · rw [TResult.andThen_raised_of_ok _ ha, TResult.andThen_state_of_ok _ ha]
          by_cases hb : fails (.activate .barebox) = true
          · rw [act_of_fails _ hb, TResult.andThen_eq_of_raised _ (by simp)]
            simp_all
          · rw [act_of_succ _ (by simpa using hb)]
            rw [TResult.andThen_raised_of_ok _ (by simp),
              TResult.andThen_state_of_ok _ (by simp)]
            simp_all
        · rw [TResult.andThen_eq_of_raised _ ha]
          simp_all
          tauto

end BStrap

namespace Cli

/-- Python `s.split(sep)` for a one-character separator, as used by
`place.acquired.split("/")` (cli.py line 444). -/
def pySplit (sep : Char) (s : String) : List String :=
  (s.data.splitOn sep).map (fun l => String.mk l)

/-- Python truthiness of an optional string: `None` and the empty string
are falsy. -/
def truthy : Option String → Bool
  | none => false
  | some s => s != ""

/-- A coordinator place as the client sees it: its name and the
`place.acquired` owner field, a "host/user" string when held (`none` when
free). -/
structure Place : Type where
  name : String
  acquired : Option String

/-- The identity of the client session: `session.gethostname()` and
`session.getuser()`. -/
structure Session : Type where
  host : String
  user : String

/-- Requests `acquire_place` can send to the coordinator. -/
inductive CoordMsg : Type
  | acquirePlace (placename : String)
  | sync
  deriving DecidableEq, Repr

/-- Errors of `acquire_place`: the `RuntimeError` raised when the place is
held by a different identity, and the `ValueError` that
`host, user = place.acquired.split("/")` raises when the owner string
does not split into exactly two parts. -/
inductive AcquireErr : Type
  | conflict (owner : String)
  | valueError
  deriving DecidableEq, Repr

/-- `acquire_place` (cli.py lines 432-461) as a function from the place
state to the returned `owned` flag (or the raised error) and the list of
coordinator requests sent, in order.  If `place.acquired` is truthy the
owner string is split at "/" into host and user; identical identity
returns `False` having sent nothing, a different identity raises having
sent nothing.  Otherwise an `AcquirePlaceRequest` is sent and
`sync_with_coordinator` awaited, and the call returns `True`. -/
def acquire_place (session : Session) (place : Place) :
    Except AcquireErr Bool × List CoordMsg :=
  if truthy place.acquired then
    match place.acquired with
    | some a =>
      match pySplit '/' a with
      | [host, user] =>
        if session.user = user ∧ session.host = host then (.ok false, [])
        else (.error (.conflict a), [])
      | _ => (.error .valueError, [])
    | none => (.error .valueError, [])
  else
    (.ok true, [.acquirePlace place.name, .sync])

/-- Outcome of one call to `console.read(timeout=0.05, max_size=4096)`:
returned bytes (possibly empty) or one of the exception classes
`_read_from_console` distinguishes. -/
inductive ConsoleRead : Type
  | data (bytes : List Nat)
  | timeoutError
  | brokenPipeError
  | connectionError
  | eofError
  | osError (errno : Nat)
  | otherException
  deriving DecidableEq, Repr

/-- Linux errno values named at cli.py line 601. -/
def EBADF : Nat := 9

/-- Broken pipe errno. -/
def EPIPE : Nat := 32

/-- Connection reset errno. -/
def ECONNRESET : Nat := 104

/-- `_read_from_console` (cli.py lines 576-614): returns
`(data, console_alive)`.  Empty bytes are reported as `None`;
`TimeoutError` is the normal nothing-new case; `BrokenPipeError`,
`ConnectionError` and `EOFError` report the console dead; an `OSError`
reports it dead exactly for errno EBADF/EPIPE/ECONNRESET and is otherwise
treated as a timeout; every other exception is treated as a timeout. -/
def read_from_console : ConsoleRead → Option (List Nat) × Bool
  | .data b => (if b.isEmpty then none else some b, true)
  | .timeoutError => (none, true)
  | .brokenPipeError => (none, false)
  | .connectionError => (none, false)
  | .eofError => (none, false)
  | .osError e =>
    if e = EBADF ∨ e = EPIPE ∨ e = ECONNRESET then (none, false) else (none, true)
  | .otherException => (none, true)

/-- Outcome of `os.read(input_fd, 1024)` in `_read_from_input`: bytes
(an empty list is EOF) or an `OSError` (EAGAIN/EWOULDBLOCK on an empty
non-blocking FIFO). -/
inductive InputRead : Type
  | data (bytes : List Nat)
  | osError
  deriving DecidableEq, Repr

/-- `_read_from_input` (cli.py lines 542-573): returns
`(data, should_exit)`.  EOF terminates only when the source is stdin
(neither a FIFO nor a file is configured); EOF on a FIFO or watched file
means wait-for-more.  A single 0x1d byte from the keyboard requests exit
when `check_ctrl_bracket` is set.  `is_file` mirrors the unused Python
parameter. -/
def read_from_input (input_fifo input_file : Option String) (is_file : Bool)
    (check_ctrl_bracket : Bool) (r : InputRead) : Option (List Nat) × Bool :=
  match r with
  | .data bytes =>
    if bytes.isEmpty then
      if !truthy input_fifo && !truthy input_file then (none, true)
      else (none, false)
    else
      if check_ctrl_bracket && !truthy input_fifo && !truthy input_file &&
          bytes.length == 1 && bytes == [0x1d] then (none, true)
      else (some bytes, false)
  | .osError => (none, false)

/-- Reason printed when the interactive loop terminates. -/
inductive BreakReason : Type
  | targetDead
  | timeoutReached
  | inputExit
  | writeClosed
  | readClosed
  deriving DecidableEq, Repr

/-- Environment of one iteration of the `while True` loop of
`interactive_console` (cli.py lines 681-721): the liveness probe, the
clock, whether select reported the input readable, the input read
outcome, whether `console.write` succeeds, and the console read
outcome. -/
structure IterEnv : Type where
  alive : Bool
  timeout : Nat
  elapsed : Nat
  inputReadable : Bool
  inRead : InputRead
  writeOk : Bool
  conRead : ConsoleRead
  deriving Repr

/-- What one loop iteration did: whether it broke out (and the printed
reason), the bytes it forwarded to `console.write`, and the console bytes
it wrote to screen/log. -/
structure IterOut : Type where
  brk : Option BreakReason
  sent : Option (List Nat)
  received : Option (List Nat)
  deriving DecidableEq, Repr

/-- Console-read half of an iteration (cli.py lines 712-721), after the
input half possibly forwarded `sent`. -/
def consoleStep (sent : Option (List Nat)) (ev : IterEnv) : IterOut :=
  let r := read_from_console ev.conRead
  if !r.2 then ⟨some .readClosed, sent, none⟩
  else ⟨none, sent, r.1⟩

/-- One iteration of `interactive_console` (cli.py lines 681-721):
liveness check, absolute timeout check, select on the input source (only
monitored for a FIFO, a file, or a TTY stdin), the input read with exit
and forwarding handling, then the console read. -/
def interactiveIter (input_fifo input_file : Option String) (stdinTty : Bool)
    (ev : IterEnv) : IterOut :=
  if !ev.alive then ⟨some .targetDead, none, none⟩
  else if ev.timeout > 0 ∧ ev.elapsed ≥ ev.timeout then ⟨some .timeoutReached, none, none⟩
  else
    let monitor := truthy input_fifo || truthy input_file || stdinTty
    if monitor && ev.inputReadable then
      let r := read_from_input input_fifo input_file (truthy input_file) true ev.inRead
      if r.2 then ⟨some .inputExit, none, none⟩
      else
        match r.1 with
        | some d =>
          if ev.writeOk then consoleStep (some d) ev
          else ⟨some .writeClosed, none, none⟩
        | none => consoleStep none ev
    else consoleStep none ev

end Cli

namespace Cli

/-- Cleanup steps attempted by `cleanup_resources` (cli.py lines 935-1073),
in source order. -/
inductive CStep : Type
  | atexitUnregister
  | deactivateConsole
  | strategyOff
  | powerOffDirect
  | deactivateAll
  | releasePlace
  | sessionStop
  | sessionClose
  | loopClose
  | closeOutput
  | unlinkFifo
  | targetCleanup
  | envCleanup
  | stepLoggerStop
  deriving DecidableEq, Repr

/-- The resources `cleanup_resources` receives from `main`: which handles
are non-None, whether this process acquired the place, and whether the
strategy / power drivers resolve. -/
structure CleanupCtx : Type where
  console : Bool
  target : Bool
  session : Bool
  hasLoop : Bool
  place_name : Option String
  place_acquired : Bool
  hasStrategy : Bool
  hasPower : Bool
  output_fd : Bool
  input_fifo : Option String
  fifo_created : Bool
  env : Bool
  deriving Repr

/-- `cleanup_resources` (cli.py lines 935-1073) as the ordered list of
steps it attempts, each paired with whether the attempt succeeded.  Every
step is wrapped in its own try/except in the source, so a failing step is
recorded and the sequence continues; the one exception is `session.close()`
(line 1028), which shares a try block with `session.stop()` (line 1027)
and is skipped when stop raises.  The power-off block (974-1014) tries a
strategy transition to `off` first and falls back to `power.off()` only
when no strategy driver resolves or the strategy transition raised.  The
place is released only under the guard of line 1017:
`session and place_name and place_acquired and loop`. -/
def cleanup_resources (ctx : CleanupCtx) (fails : CStep → Bool) : List (CStep × Bool) :=
  (if ctx.target then [(.atexitUnregister, !fails .atexitUnregister)] else []) ++
  (if ctx.console && ctx.target then [(.deactivateConsole, !fails .deactivateConsole)] else []) ++
  (if ctx.target then
    (if ctx.hasStrategy then [(.strategyOff, !fails .strategyOff)] else []) ++
    (if !(ctx.hasStrategy && !fails .strategyOff) && ctx.hasPower then
      [(.powerOffDirect, !fails .powerOffDirect)] else []) ++
    [(.deactivateAll, !fails .deactivateAll)]
   else []) ++
  (if ctx.session && ctx.place_name.isSome && ctx.place_acquired && ctx.hasLoop then
    [(.releasePlace, !fails .releasePlace)] else []) ++
  (if ctx.session && ctx.hasLoop then
    (if fails .sessionStop then [(.sessionStop, false)]
     else [(.sessionStop, true), (.sessionClose, !fails .sessionClose)])
   else []) ++
  (if ctx.hasLoop then [(.loopClose, !fails .loopClose)] else []) ++
  (if ctx.output_fd then [(.closeOutput, !fails .closeOutput)] else []) ++
  (if ctx.fifo_created && truthy ctx.input_fifo then [(.unlinkFifo, !fails .unlinkFifo)] else []) ++
  (if ctx.target then [(.targetCleanup, !fails .targetCleanup)] else []) ++
  (if ctx.env then [(.envCleanup, !fails .envCleanup)] else []) ++
  [(.stepLoggerStop, !fails .stepLoggerStop)]

/-- How the main operation of `main` (cli.py lines 1107-1227) ended:
the body returned a code (0, or an early 1), a `KeyboardInterrupt` was
caught (130), or another exception was caught (1). -/
inductive MainOutcome : Type
  | completed (code : Nat)
  | interrupted
  | failed
  deriving DecidableEq, Repr

/-- The exit code `main` determines for each outcome (lines 1217-1227). -/
def exitCode : MainOutcome → Nat
  | .completed c => c
  | .interrupted => 130
  | .failed => 1

/-- `main`'s exit protocol (lines 1217-1241): the `finally` block runs
`cleanup_resources` unconditionally; since every cleanup step swallows
its own exceptions, the finally block cannot raise and the returned code
is the one the main operation determined. -/
def mainExit (outcome : MainOutcome) (ctx : CleanupCtx) (fails : CStep → Bool) : Nat :=
  let _ := cleanup_resources ctx fails
  exitCode outcome

/-- One value of the `images:` / `image-sets:` YAML mapping: a plain path
string (old format) or a dict with an optional `image` key and `seek` /
`skip` attributes (new format). -/
inductive RawImage : Type
  | path (p : String)
  | withAttrs (image : Option String) (seek : Option Nat) (skip : Option Nat)
  deriving DecidableEq, Repr

/-- `normalize_image_config` (cli.py lines 205-234): build the
name-to-path mapping and the full per-image config, raising `ValueError`
when a dict-form entry has no `image` key. -/
def normalize_image_config :
    List (String × RawImage) →
      Except String (List (String × String) × List (String × ImageParams))
  | [] => .ok ([], [])
  | (name, v) :: rest => do
    let r ← normalize_image_config rest
    match v with
    | .path p => .ok ((name, p) :: r.1, (name, ⟨none, none⟩) :: r.2)
    | .withAttrs img seek skip =>
      match img with
      | none => .error name
      | some p => .ok ((name, p) :: r.1, (name, ⟨seek, skip⟩) :: r.2)

/-- One `--image` override (cli.py lines 366-383): an argument containing
`=` is the named form, split at the first `=` into name and path;
otherwise it is the positional form overriding the first image. -/
inductive ImageOverride : Type
  | named (name : String) (path : String)
  | positional (path : String)
  deriving DecidableEq, Repr

/-- Log events emitted while loading the image configuration. -/
inductive LoadWarn : Type
  | noImagesIgnored
  | overrideIgnored (name : String)
  | oldFormatIgnoredSet
  deriving DecidableEq, Repr

/-- Apply one `--image` override to the images mapping (cli.py lines
366-383).  A named override whose name exists replaces exactly that
entry's path with `realpath path`; a named override whose name is absent
logs a warning and changes nothing; a positional override replaces the
first image's path. -/
def applyOverride (realpath : String → String) (images : List (String × String))
    (ov : ImageOverride) : List (String × String) × List LoadWarn :=
  match ov with
  | .named name path =>
    if images.any (fun e => e.1 = name) then
      (images.map (fun e => if e.1 = name then (e.1, realpath path) else e), [])
    else
      (images, [.overrideIgnored name])
  | .positional path =>
    match images with
    | [] => (images, [])
    | (first_name, _) :: _ =>
      (images.map (fun e => if e.1 = first_name then (e.1, realpath path) else e), [])

/-- The override loop of `load_environment` (cli.py lines 359-383):
skipped entirely when no overrides were given; when the images mapping is
empty all overrides are ignored with a warning; otherwise the overrides
are applied in order. -/
def applyImageOverrides (realpath : String → String) (images : List (String × String))
    (overrides : List ImageOverride) : List (String × String) × List LoadWarn :=
  if overrides.isEmpty then (images, [])
  else if images.isEmpty then (images, [.noImagesIgnored])
  else
    overrides.foldl
      (fun acc ov =>
        let r := applyOverride realpath acc.1 ov
        (r.1, acc.2 ++ r.2))
      (images, [])

/-- Python truthiness of an optional mapping: missing key and empty dict
are both falsy. -/
def truthyDict {α : Type} : Option (List α) → Bool
  | none => false
  | some l => !l.isEmpty

/-- The image-related slice of `env.config.data`: the new `image-sets:`
mapping of named sets and the old flat `images:` mapping. -/
structure EnvData : Type where
  image_sets : Option (List (String × List (String × RawImage)))
  images : Option (List (String × RawImage))
  deriving Repr

/-- The image-set selection and override part of `load_environment`
(cli.py lines 300-390): pick the named set (exiting with code 1 when the
set name is unknown, the set is empty, or normalisation fails), fall back
to the old flat `images:` mapping (warning when a non-default set name
was requested), exit when neither section exists, and finally apply the
`--image` overrides to the selected mapping.  `sys.exit(1)` is modelled
as `.error 1`. -/
def loadImages (realpath : String → String) (data : EnvData) (image_set : String)
    (image_overrides : List ImageOverride) :
    Except Nat (List (String × String) × List (String × ImageParams) × List LoadWarn) :=
  if truthyDict data.image_sets then
    match List.lookup image_set (data.image_sets.getD []) with
    | none => .error 1
    | some selected_images =>
      if selected_images.isEmpty then .error 1
      else
        match normalize_image_config selected_images with
        | .error _ => .error 1
        | .ok (images_paths, image_config) =>
          let r := applyImageOverrides realpath images_paths image_overrides
          .ok (r.1, image_config, r.2)
  else if truthyDict data.images then
    let warn0 : List LoadWarn := if image_set ≠ "default" then [.oldFormatIgnoredSet] else []
    match normalize_image_config (data.images.getD []) with
    | .error _ => .error 1
    | .ok (images_paths, image_config) =>
      let r := applyImageOverrides realpath images_paths image_overrides
      .ok (r.1, image_config, warn0 ++ r.2)
  else .error 1

end Cli

/-- C2: for both strategies and every non-sentinel target equal to the
current status, `transition` performs zero hardware actions, leaves the
state unchanged and returns normally (the logged skip of
strategy-sdmux.py lines 89-91 and strategy-bootstrap.py lines 84-86). -/
theorem transition_same_state_is_skip :
    (∀ (cfg : Config) (fails : HwAction → Bool) (s : SDMux.SDMuxState)
        (t : SDMux.SDMuxStatus), t ≠ .unknown → t = s.status →
      SDMux.transition cfg fails s t = ⟨.ok (), s, []⟩)
    ∧ (∀ (cfg : Config) (fails : HwAction → Bool) (s : BStrap.BootstrapState)
        (t : BStrap.BootstrapStatus), t ≠ .unknown → t = s.status →
      BStrap.transition cfg fails s t = ⟨.ok (), s, []⟩) := by
  constructor
  · intro cfg fails s t h1 h2
    cases t <;> simp_all [SDMux.transition]
  · intro cfg fails s t h1 h2
    cases t <;> simp_all [BStrap.transition]

/-- Witness for C2: a skip observed concretely on both strategies. -/
theorem transition_same_state_is_skip_witness :
    SDMux.transition ⟨false, [("b", "/i")], []⟩ noFail ⟨.on, true⟩ .on = ⟨.ok (), ⟨.on, true⟩, []⟩
    ∧ BStrap.transition ⟨false, [("b", "/i")], []⟩ noFail ⟨.off, false⟩ .off
      = ⟨.ok (), ⟨.off, false⟩, []⟩ :=
  ⟨transition_same_state_is_skip.1 ⟨false, [("b", "/i")], []⟩ noFail ⟨.on, true⟩ .on
      (by decide) rfl,
    transition_same_state_is_skip.2 ⟨false, [("b", "/i")], []⟩ noFail ⟨.off, false⟩ .off
      (by decide) rfl⟩

/-- C4: `acquire_place` returns `True` after sending exactly an acquire
request and a coordinator sync when the place is free; returns `False`
with zero requests when the place is held by the identical (host, user)
identity; and raises the conflict error with zero requests (hence zero
coordinator mutation) when it is held by a different identity. -/
theorem acquire_place_cases :
    (∀ (sess : Cli.Session) (pl : Cli.Place), Cli.truthy pl.acquired = false →
      Cli.acquire_place sess pl = (.ok true, [.acquirePlace pl.name, .sync]))
    ∧ (∀ (sess : Cli.Session) (pl : Cli.Place) (a : String),
        pl.acquired = some a → Cli.truthy pl.acquired = true →
        Cli.pySplit '/' a = [sess.host, sess.user] →
        Cli.acquire_place sess pl = (.ok false, []))
    ∧ (∀ (sess : Cli.Session) (pl : Cli.Place) (a host user : String),
        pl.acquired = some a → Cli.truthy pl.acquired = true →
        Cli.pySplit '/' a = [host, user] →
        ¬(sess.user = user ∧ sess.host = host) →
        Cli.acquire_place sess pl = (.error (.conflict a), [])) := by
  refine ⟨?_, ?_, ?_⟩
  · intro sess pl h
    simp [Cli.acquire_place, h]
  · intro sess pl a ha ht hsplit
    rw [ha] at ht
    simp [Cli.acquire_place, ha, ht, hsplit]
  · intro sess pl a host user ha ht hsplit hne
    rw [ha] at ht
    simp [Cli.acquire_place, ha, ht, hsplit, hne]

/-- Witness for C4: the three cases at concrete places and identities. -/
theorem acquire_place_cases_witness :
    Cli.acquire_place ⟨"myhost", "alice"⟩ ⟨"board1", none⟩
      = (.ok true, [.acquirePlace "board1", .sync])
    ∧ Cli.acquire_place ⟨"myhost", "alice"⟩ ⟨"board1", some "myhost/alice"⟩
      = (.ok false, [])
    ∧ Cli.acquire_place ⟨"myhost", "alice"⟩ ⟨"board1", some "otherhost/bob"⟩
      = (.error (.conflict "otherhost/bob"), []) :=
  ⟨acquire_place_cases.1 ⟨"myhost", "alice"⟩ ⟨"board1", none⟩ (by decide),
    acquire_place_cases.2.1 ⟨"myhost", "alice"⟩ ⟨"board1", some "myhost/alice"⟩
      "myhost/alice" rfl (by decide) (by decide),
    acquire_place_cases.2.2 ⟨"myhost", "alice"⟩ ⟨"board1", some "otherhost/bob"⟩
      "otherhost/bob" "otherhost" "bob" rfl (by decide) (by decide) (by decide)⟩

namespace Cli

/-- The connection-closed class of `console.read` outcomes named by the
specification: broken pipe, connection error, EOF, or an `OSError` with
errno EBADF/EPIPE/ECONNRESET. -/
def connectionClosedClass : ConsoleRead → Bool
  | .brokenPipeError => true
  | .connectionError => true
  | .eofError => true
  | .osError e => decide (e = EBADF ∨ e = EPIPE ∨ e = ECONNRESET)
  | _ => false

/-- Is this `console.read` outcome an exception (rather than returned
data)? -/
def isExceptionOutcome : ConsoleRead → Bool
  | .data _ => false
  | _ => true

end Cli

/-- C7: every exception of `console.read` is classified two ways only:
a connection-closed-class outcome reports the console dead (and the
interactive loop then breaks with the closed reason), while a timeout and
every other exception reports it alive with no data (and the loop
continues). -/
theorem read_from_console_classification :
    (∀ o : Cli.ConsoleRead, Cli.isExceptionOutcome o = true →
      (Cli.read_from_console o).1 = none
      ∧ ((Cli.read_from_console o).2 = false ↔ Cli.connectionClosedClass o = true))
    ∧ (∀ (input_fifo input_file : Option String) (stdinTty : Bool) (ev : Cli.IterEnv),
        ev.alive = true → ev.timeout = 0 → ev.inputReadable = false →
        Cli.isExceptionOutcome ev.conRead = true →
        (Cli.interactiveIter input_fifo input_file stdinTty ev).brk =
          (if Cli.connectionClosedClass ev.conRead = true then some .readClosed else none)) := by
  have hcls : ∀ o : Cli.ConsoleRead, Cli.isExceptionOutcome o = true →
      (Cli.read_from_console o).1 = none
      ∧ ((Cli.read_from_console o).2 = false ↔ Cli.connectionClosedClass o = true) := by
    intro o h
    cases o <;>
      simp_all [Cli.read_from_console, Cli.connectionClosedClass, Cli.isExceptionOutcome]
    rename_i e
    by_cases he : e = Cli.EBADF ∨ e = Cli.EPIPE ∨ e = Cli.ECONNRESET <;>
      simp [Cli.read_from_console, he]
  refine ⟨hcls, ?_⟩
  intro input_fifo input_file stdinTty ev h1 h2 h3 h4
  obtain ⟨hn, hiff⟩ := hcls ev.conRead h4
  by_cases hcc : Cli.connectionClosedClass ev.conRead = true
  · have hdead : (Cli.read_from_console ev.conRead).2 = false := hiff.mpr hcc
    simp [Cli.interactiveIter, Cli.consoleStep, h1, h2, h3, hdead, hcc]
  · have halive : (Cli.read_from_console ev.conRead).2 = true := by
      rcases Bool.eq_false_or_eq_true (Cli.read_from_console ev.conRead).2 with h | h
      · exact h
      · exact absurd (hiff.mp h) hcc
    simp [Cli.interactiveIter, Cli.consoleStep, h1, h2, h3, halive, hcc]

/-- Witness for C7: an `EOFError` kills the loop with the closed reason;
a `TimeoutError` and an unrelated exception keep it alive. -/
theorem read_from_console_classification_witness :
    ((Cli.read_from_console .eofError).1 = none
      ∧ ((Cli.read_from_console .eofError).2 = false ↔
          Cli.connectionClosedClass .eofError = true))
    ∧ ((Cli.read_from_console .otherException).1 = none
      ∧ ((Cli.read_from_console .otherException).2 = false ↔
          Cli.connectionClosedClass .otherException = true))
    ∧ (Cli.interactiveIter none none true ⟨true, 0, 7, false, .data [], true, .eofError⟩).brk
      = (if Cli.connectionClosedClass .eofError = true then some .readClosed else none)
    ∧ (Cli.interactiveIter none none true
        ⟨true, 0, 7, false, .data [], true, .timeoutError⟩).brk
      = (if Cli.connectionClosedClass .timeoutError = true then some .readClosed else none) :=
  ⟨read_from_console_classification.1 .eofError (by decide),
    read_from_console_classification.1 .otherException (by decide),
    read_from_console_classification.2 none none true
      ⟨true, 0, 7, false, .data [], true, .eofError⟩ rfl rfl rfl (by decide),
    read_from_console_classification.2 none none true
      ⟨true, 0, 7, false, .data [], true, .timeoutError⟩ rfl rfl rfl (by decide)⟩

/-- Sent bytes of the console-read half are whatever the input half
forwarded. -/
theorem consoleStep_sent (sent : Option (List Nat)) (ev : Cli.IterEnv) :
    (Cli.consoleStep sent ev).sent = sent := by
  cases hal : (Cli.read_from_console ev.conRead).2 <;> simp [Cli.consoleStep, hal]

/-- The console-read half never breaks with the input-exit reason. -/
theorem consoleStep_brk_ne_inputExit (sent : Option (List Nat)) (ev : Cli.IterEnv) :
    (Cli.consoleStep sent ev).brk ≠ some Cli.BreakReason.inputExit := by
  cases hal : (Cli.read_from_console ev.conRead).2 <;> simp [Cli.consoleStep, hal]

/-- C8: an EOF read of the input source requests loop termination exactly
when the source is stdin (neither a FIFO nor a watched file is
configured); on a FIFO the loop iteration neither breaks nor writes on
EOF, and real bytes arriving afterwards are forwarded to `console.write`;
on stdin, EOF breaks the loop. -/
theorem input_eof_terminates_iff_stdin :
    (∀ (input_fifo input_file : Option String) (is_file check_ctrl : Bool),
      Cli.read_from_input input_fifo input_file is_file check_ctrl (.data [])
        = (none, !(Cli.truthy input_fifo || Cli.truthy input_file)))
    ∧ (∀ (p : String) (stdinTty : Bool) (ev : Cli.IterEnv), p ≠ "" →
        ev.alive = true → ev.timeout = 0 → ev.inputReadable = true →
        ev.inRead = .data [] →
        (Cli.interactiveIter (some p) none stdinTty ev).brk ≠ some .inputExit
        ∧ (Cli.interactiveIter (some p) none stdinTty ev).sent = none)
    ∧ (∀ (p : String) (stdinTty : Bool) (ev : Cli.IterEnv) (bs : List Nat), p ≠ "" →
        ev.alive = true → ev.timeout = 0 → ev.inputReadable = true →
        ev.inRead = .data bs → bs ≠ [] → ev.writeOk = true →
        (Cli.interactiveIter (some p) none stdinTty ev).sent = some bs)
    ∧ (∀ (ev : Cli.IterEnv),
        ev.alive = true → ev.timeout = 0 → ev.inputReadable = true →
        ev.inRead = .data [] →
        (Cli.interactiveIter none none true ev).brk = some .inputExit) := by
  refine ⟨?_, ?_, ?_, ?_⟩
  · intro input_fifo input_file is_file check_ctrl
    cases input_fifo with
    | none =>
      cases input_file with
      | none => simp [Cli.read_from_input, Cli.truthy]
      | some w =>
        by_cases hw : w = "" <;> simp [Cli.read_from_input, Cli.truthy, hw, bne_iff_ne]
    | some v =>
      cases input_file with
      | none =>
        by_cases hv : v = "" <;> simp [Cli.read_from_input, Cli.truthy, hv, bne_iff_ne]
      | some w =>
        by_cases hv : v = "" <;> by_cases hw : w = "" <;>
          simp [Cli.read_from_input, Cli.truthy, hv, hw, bne_iff_ne]
  · intro p stdinTty ev hp h1 h2 h3 hin
    have htr : Cli.truthy (some p) = true := by simp [Cli.truthy, bne_iff_ne, hp]
    have hred : Cli.interactiveIter (some p) none stdinTty ev = Cli.consoleStep none ev := by
      simp [Cli.interactiveIter, Cli.read_from_input, h1, h2, h3, hin, htr, Cli.truthy, hp]
    rw [hred]
    exact ⟨consoleStep_brk_ne_inputExit none ev, consoleStep_sent none ev⟩
  · intro p stdinTty ev bs hp h1 h2 h3 hin hbs hw
    have htr : Cli.truthy (some p) = true := by simp [Cli.truthy, bne_iff_ne, hp]
    have hred : Cli.interactiveIter (some p) none stdinTty ev
        = Cli.consoleStep (some bs) ev := by
      simp [Cli.interactiveIter, Cli.read_from_input, h1, h2, h3, hin, htr, Cli.truthy,
        hbs, hw, hp]
    rw [hred]
    exact consoleStep_sent (some bs) ev
  · intro ev h1 h2 h3 hin
    simp [Cli.interactiveIter, Cli.consoleStep, Cli.read_from_input, h1, h2, h3, hin,
      Cli.truthy]

/-- Witness for C8: on a concrete FIFO, the EOF iteration neither exits
nor writes and the following data iteration forwards the bytes; on stdin,
EOF exits. -/
theorem input_eof_terminates_iff_stdin_witness :
    Cli.read_from_input (some "/tmp/f") none false false (.data [])
      = (none, !(Cli.truthy (some "/tmp/f") || Cli.truthy none))
    ∧ (Cli.interactiveIter (some "/tmp/f") none false
        ⟨true, 0, 3, true, .data [], true, .timeoutError⟩).brk ≠ some .inputExit
    ∧ (Cli.interactiveIter (some "/tmp/f") none false
        ⟨true, 0, 3, true, .data [], true, .timeoutError⟩).sent = none
    ∧ (Cli.interactiveIter (some "/tmp/f") none false
        ⟨true, 0, 4, true, .data [104, 105], true, .timeoutError⟩).sent = some [104, 105]
    ∧ (Cli.interactiveIter none none true
        ⟨true, 0, 5, true, .data [], true, .timeoutError⟩).brk = some .inputExit := by
  refine ⟨input_eof_terminates_iff_stdin.1 (some "/tmp/f") none false false,
    (input_eof_terminates_iff_stdin.2.1 "/tmp/f" false
      ⟨true, 0, 3, true, .data [], true, .timeoutError⟩ (by decide) rfl rfl rfl rfl).1,
    (input_eof_terminates_iff_stdin.2.1 "/tmp/f" false
      ⟨true, 0, 3, true, .data [], true, .timeoutError⟩ (by decide) rfl rfl rfl rfl).2,
    input_eof_terminates_iff_stdin.2.2.1 "/tmp/f" false
      ⟨true, 0, 4, true, .data [104, 105], true, .timeoutError⟩ [104, 105]
      (by decide) rfl rfl rfl rfl (by decide) rfl,
    input_eof_terminates_iff_stdin.2.2.2
      ⟨true, 0, 5, true, .data [], true, .timeoutError⟩ rfl rfl rfl rfl⟩

/-- C1: across any sequence of transition calls of one process (started at
the initial state), `storage.write_image` runs at most once;
`bootstrap_done` is monotone under every transition (any failure oracle,
so it is never reset); a call whose result still has `bootstrap_done`
false performed no write (the flag is set as soon as a write completed);
with the `no_write` option the flag is set true by an `on` transition
without any write; and once `bootstrap_done` holds, an `on` transition
writes nothing, ends in the `on` state, and still power cycles whenever
it was not an idempotent skip. -/
theorem sdmux_write_image_at_most_once :
    (∀ (cfg : Config) (ts : List SDMux.SDMuxStatus),
      writeCount (SDMux.runSeq cfg noFail SDMux.initState ts).2 ≤ 1)
    ∧ (∀ (cfg : Config) (fails : HwAction → Bool) (s : SDMux.SDMuxState)
        (t : SDMux.SDMuxStatus), s.bootstrap_done = true →
        (SDMux.transition cfg fails s t).state.bootstrap_done = true)
    ∧ (∀ (cfg : Config) (s : SDMux.SDMuxState) (t : SDMux.SDMuxStatus),
        (SDMux.transition cfg noFail s t).state.bootstrap_done = false →
        writeCount (SDMux.transition cfg noFail s t).trace = 0)
    ∧ (∀ (cfg : Config) (s : SDMux.SDMuxState), cfg.no_write = true →
        writeCount (SDMux.transition cfg noFail s .on).trace = 0
        ∧ (s.status ≠ .on → (SDMux.transition cfg noFail s .on).state.bootstrap_done = true))
    ∧ (∀ (cfg : Config) (s : SDMux.SDMuxState), s.bootstrap_done = true →
        writeCount (SDMux.transition cfg noFail s .on).trace = 0
        ∧ (SDMux.transition cfg noFail s .on).state.status = .on
        ∧ (s.status ≠ .on →
            HwAction.powerCycle ∈ (SDMux.transition cfg noFail s .on).trace)) := by
  refine ⟨?_, ?_, ?_, ?_, ?_⟩
  · intro cfg ts
    have h := SDMux.runSeq_writes_pot cfg ts SDMux.initState
    have h2 := SDMux.donePot_le_one (SDMux.runSeq cfg noFail SDMux.initState ts).1
    have h3 : SDMux.donePot SDMux.initState = 0 := rfl
    omega
  · intro cfg fails s t h
    rcases (SDMux.transition_char cfg fails s t).2.2 with h2 | h2
    · rw [h2]
      exact h
    · exact h2
  · intro cfg s t h
    have h1 := SDMux.transition_noFail_writes cfg s t
    simp [SDMux.donePot, h] at h1
    omega
  · intro cfg s hw
    by_cases h4 : s.status = SDMux.SDMuxStatus.on
    · constructor
      · simp [SDMux.transition, h4]
      · intro h
        exact absurd h4 h
    · rw [SDMux.transition_on_noFail_dut cfg s (by simp [hw]) h4]
      by_cases hst : s.status = SDMux.SDMuxStatus.off <;>
        simp [hst, isWrite]
  · intro cfg s hd
    by_cases h4 : s.status = SDMux.SDMuxStatus.on
    · refine ⟨?_, ?_, ?_⟩
      · simp [SDMux.transition, h4]
      · simp [SDMux.transition, h4]
      · intro h
        exact absurd h4 h
    · rw [SDMux.transition_on_noFail_dut cfg s (by simp [hd]) h4]
      by_cases hst : s.status = SDMux.SDMuxStatus.off <;>
        simp [hst, isWrite]

/-- Witness for C1: a concrete double-`on` then `barebox` sequence writes
once; the flag survives a transition; a post-flag `on` transition writes
nothing, reaches `on` and still cycles power. -/
theorem sdmux_write_image_at_most_once_witness :
    writeCount (SDMux.runSeq ⟨false, [("barebox", "/i")], []⟩ noFail SDMux.initState
        [.on, .on, .barebox]).2 ≤ 1
    ∧ (SDMux.transition ⟨false, [("barebox", "/i")], []⟩ noFail ⟨.on, true⟩
        .off).state.bootstrap_done = true
    ∧ (writeCount (SDMux.transition ⟨true, [("barebox", "/i")], []⟩ noFail ⟨.unknown, false⟩
          .on).trace = 0
        ∧ ((⟨.unknown, false⟩ : SDMux.SDMuxState).status ≠ .on →
            (SDMux.transition ⟨true, [("barebox", "/i")], []⟩ noFail ⟨.unknown, false⟩
              .on).state.bootstrap_done = true))
    ∧ (writeCount (SDMux.transition ⟨false, [("barebox", "/i")], []⟩ noFail ⟨.off, true⟩
          .on).trace = 0
        ∧ (SDMux.transition ⟨false, [("barebox", "/i")], []⟩ noFail ⟨.off, true⟩
            .on).state.status = .on
        ∧ ((⟨.off, true⟩ : SDMux.SDMuxState).status ≠ .on →
            HwAction.powerCycle ∈ (SDMux.transition ⟨false, [("barebox", "/i")], []⟩ noFail
              ⟨.off, true⟩ .on).trace)) :=
  ⟨sdmux_write_image_at_most_once.1 ⟨false, [("barebox", "/i")], []⟩ [.on, .on, .barebox],
    sdmux_write_image_at_most_once.2.1 ⟨false, [("barebox", "/i")], []⟩ noFail
      ⟨.on, true⟩ .off rfl,
    sdmux_write_image_at_most_once.2.2.2.1 ⟨true, [("barebox", "/i")], []⟩
      ⟨.unknown, false⟩ rfl,
    sdmux_write_image_at_most_once.2.2.2.2 ⟨false, [("barebox", "/i")], []⟩
      ⟨.off, true⟩ rfl⟩

/-- C3 (SD-mux side): a `barebox` transition is the `on` transition's
actions followed by exactly the barebox activation, and an `on`
transition begins with exactly the actions of the `off` transition from
the same state - the compound never skips an intermediate step. -/
theorem sdmux_barebox_compound :
    ∀ (cfg : Config) (s : SDMux.SDMuxState),
      (s.status ≠ .barebox →
        (SDMux.transition cfg noFail s .on).raised = false →
        (SDMux.transition cfg noFail s .barebox).trace
            = (SDMux.transition cfg noFail s .on).trace ++ [.activate .barebox]
          ∧ (SDMux.transition cfg noFail s .barebox).state.status = .barebox)
      ∧ (s.status ≠ .on →
          List.IsPrefix (SDMux.transition cfg noFail s .off).trace
            (SDMux.transition cfg noFail s .on).trace) := by
  intro cfg s
  constructor
  · intro hb hok
    have hdisp : SDMux.dispatchOn cfg noFail s = SDMux.transition cfg noFail s .on := rfl
    unfold SDMux.transition SDMux.bareboxBody
    rw [if_neg hb, hdisp]
    rw [TResult.andThen_trace_of_ok _ hok, TResult.andThen_state_of_ok _ hok]
    exact ⟨rfl, rfl⟩
  · intro hon
    have hofftr : (SDMux.transition cfg noFail s .off).trace
        = (if s.status = SDMux.SDMuxStatus.off then [] else SDMux.offTraceList) := by
      rw [SDMux.transition_off_noFail]
      by_cases hst : s.status = SDMux.SDMuxStatus.off <;> simp [hst]
    rw [hofftr]
    by_cases hd : s.bootstrap_done = true
    · rw [SDMux.transition_on_noFail_dut cfg s (by simp [hd]) hon]
      exact List.prefix_append _ _
    · by_cases hw : cfg.no_write = true
      · rw [SDMux.transition_on_noFail_dut cfg s (by simp [hw]) hon]
        exact List.prefix_append _ _
      · cases h3 : cfg.images with
        | nil =>
          rw [SDMux.transition_on_noFail_noImages cfg s (by simpa using hd)
            (by simpa using hw) h3 hon]
          exact List.prefix_append _ _
        | cons q rest =>
          obtain ⟨n, p2⟩ := q
          rw [SDMux.transition_on_noFail_write cfg n p2 rest s (by simpa using hd)
            (by simpa using hw) h3 hon]
          exact List.prefix_append _ _

/-- Witness for the C3 SD-mux theorem: from the initial `unknown` state the
compound `barebox` transition runs off actions, then on actions, then the
barebox activation. -/
theorem sdmux_barebox_compound_witness :
    ((SDMux.transition ⟨false, [("barebox", "/i")], []⟩ noFail SDMux.initState .barebox).trace
        = (SDMux.transition ⟨false, [("barebox", "/i")], []⟩ noFail SDMux.initState .on).trace
            ++ [.activate .barebox]
      ∧ (SDMux.transition ⟨false, [("barebox", "/i")], []⟩ noFail SDMux.initState
          .barebox).state.status = .barebox)
    ∧ List.IsPrefix
        (SDMux.transition ⟨false, [("barebox", "/i")], []⟩ noFail SDMux.initState .off).trace
        (SDMux.transition ⟨false, [("barebox", "/i")], []⟩ noFail SDMux.initState .on).trace :=
  ⟨(sdmux_barebox_compound ⟨false, [("barebox", "/i")], []⟩ SDMux.initState).1
      (by decide) (by decide),
    (sdmux_barebox_compound ⟨false, [("barebox", "/i")], []⟩ SDMux.initState).2
      (by decide)⟩

/-- C6 counterexample: in a concrete write run the mux switch to host
mode happens after, not before, the storage activation, so the claimed
order host-mode, storage, write, dut-mode does not occur as a
subsequence of the trace even though a write occurred. -/
theorem sdmux_write_order_counterexample :
    writeCount (SDMux.transition ⟨false, [("barebox", "/img")], []⟩ noFail
        ⟨.off, false⟩ .on).trace = 1
    ∧ ¬ List.Sublist
        [HwAction.setMode .host, HwAction.activate .storage,
          HwAction.writeImage "/img" none none, HwAction.setMode .dut]
        (SDMux.transition ⟨false, [("barebox", "/img")], []⟩ noFail
          ⟨.off, false⟩ .on).trace := by
  decide

/-- C6 amended: whenever an `on` transition writes (flag clear, writing
enabled, an image configured), the trace is exactly: the off actions when
not already off, console activation, then activate sdmux, activate
storage, switch the mux to host mode, write the image with the seek/skip
attributes from the image config, switch the mux back to dut mode, and
power cycle. -/
theorem sdmux_write_order (cfg : Config) (n p : String) (rest : List (String × String))
    (s : SDMux.SDMuxState) (h1 : s.bootstrap_done = false) (h2 : cfg.no_write = false)
    (h3 : cfg.images = (n, p) :: rest) (h4 : s.status ≠ SDMux.SDMuxStatus.on) :
    (SDMux.transition cfg noFail s .on).trace =
      (if s.status = SDMux.SDMuxStatus.off then [] else SDMux.offTraceList) ++
        ([.activate .console] ++
          ([.activate .sdmux, .activate .storage, .setMode .host,
              .writeImage p ((List.lookup n cfg.image_config).getD ⟨none, none⟩).seek
                ((List.lookup n cfg.image_config).getD ⟨none, none⟩).skip,
              .setMode .dut] ++
            [.powerCycle])) := by
  rw [SDMux.transition_on_noFail_write cfg n p rest s h1 h2 h3 h4]
  rfl

/-- Witness for the amended C6 theorem: the concrete trace of a write
run, with a seek attribute taken from the image config. -/
theorem sdmux_write_order_witness :
    (SDMux.transition ⟨false, [("barebox", "/img")], [("barebox", ⟨some 64, none⟩)]⟩ noFail
        ⟨.unknown, false⟩ .on).trace =
      (if (⟨.unknown, false⟩ : SDMux.SDMuxState).status = SDMux.SDMuxStatus.off then []
        else SDMux.offTraceList) ++
        ([.activate .console] ++
          ([.activate .sdmux, .activate .storage, .setMode .host,
              .writeImage "/img"
                ((List.lookup "barebox"
                    [("barebox", (⟨some 64, none⟩ : ImageParams))]).getD ⟨none, none⟩).seek
                ((List.lookup "barebox"
                    [("barebox", (⟨some 64, none⟩ : ImageParams))]).getD ⟨none, none⟩).skip,
              .setMode .dut] ++
            [.powerCycle])) :=
  sdmux_write_order ⟨false, [("barebox", "/img")], [("barebox", ⟨some 64, none⟩)]⟩
    "barebox" "/img" [] ⟨.unknown, false⟩ rfl rfl rfl (by decide)

/-- C5 counterexample: with a valid `default` set holding only `barebox`,
the override `missing=/b` does not make `load_environment` fail - the
load succeeds with the images unchanged and only a logged warning
(cli.py line 376 warns and ignores instead of exiting). -/
theorem image_override_missing_name_counterexample :
    Cli.loadImages id
        ⟨some [("default", [("barebox", .path "/a")])], none⟩ "default"
        [.named "missing" "/b"]
      = .ok ([("barebox", "/a")], [("barebox", ⟨none, none⟩)],
          [.overrideIgnored "missing"]) := rfl

/-- An override application never changes the list of image names. -/
theorem applyOverride_fst (realpath : String → String) (images : List (String × String))
    (ov : Cli.ImageOverride) :
    (Cli.applyOverride realpath images ov).1.map Prod.fst = images.map Prod.fst := by
  cases ov with
  | named name path =>
    simp only [Cli.applyOverride]
    split
    · simp only [List.map_map]
      apply List.map_congr_left
      intro a _
      by_cases h : a.1 = name <;> simp [h]
    · rfl
  | positional path =>
    simp only [Cli.applyOverride]
    cases images with
    | nil => rfl
    | cons q rest =>
      obtain ⟨fn, fp⟩ := q
      simp only [List.map_map]
      apply List.map_congr_left
      intro a _
      by_cases h : a.1 = fn <;> simp [h]

/-- C5 amended: the override loop never creates a new image entry (the
name list is preserved for every override list); a named override whose
name is missing from the selected set leaves every entry unchanged and
logs a warning instead of stopping the run (the whole load still
succeeds); a named override whose name exists replaces exactly that
entry's path. -/
theorem image_override_semantics :
    (∀ (realpath : String → String) (images : List (String × String))
        (ovs : List Cli.ImageOverride),
      (Cli.applyImageOverrides realpath images ovs).1.map Prod.fst = images.map Prod.fst)
    ∧ (∀ (realpath : String → String) (images : List (String × String))
        (name path : String), images ≠ [] →
        images.any (fun e => e.1 = name) = false →
        Cli.applyImageOverrides realpath images [.named name path]
          = (images, [.overrideIgnored name]))
    ∧ (∀ (realpath : String → String) (images : List (String × String))
        (name path : String), images ≠ [] →
        images.any (fun e => e.1 = name) = true →
        Cli.applyImageOverrides realpath images [.named name path]
          = (images.map (fun e => if e.1 = name then (e.1, realpath path) else e), []))
    ∧ (∀ (realpath : String → String) (data : Cli.EnvData) (set_name : String)
        (sel : List (String × Cli.RawImage)) (imgs : List (String × String))
        (icfg : List (String × ImageParams)) (name path : String),
        Cli.truthyDict data.image_sets = true →
        List.lookup set_name (data.image_sets.getD []) = some sel →
        sel.isEmpty = false →
        Cli.normalize_image_config sel = .ok (imgs, icfg) →
        imgs ≠ [] →
        imgs.any (fun e => e.1 = name) = false →
        Cli.loadImages realpath data set_name [.named name path]
          = .ok (imgs, icfg, [.overrideIgnored name])) := by
  have hfold : ∀ (realpath : String → String) (ovs : List Cli.ImageOverride)
      (acc : List (String × String) × List Cli.LoadWarn),
      ((ovs.foldl (fun acc ov =>
          let r := Cli.applyOverride realpath acc.1 ov
          (r.1, acc.2 ++ r.2)) acc).1).map Prod.fst = acc.1.map Prod.fst := by
    intro realpath ovs
    induction ovs with
    | nil => intro acc; rfl
    | cons ov ovs ih =>
      intro acc
      rw [List.foldl_cons, ih]
      exact applyOverride_fst realpath acc.1 ov
  have hone : ∀ (realpath : String → String) (images : List (String × String))
      (name path : String), images ≠ [] →
      Cli.applyImageOverrides realpath images [.named name path]
        = ((Cli.applyOverride realpath images (.named name path)).1,
            (Cli.applyOverride realpath images (.named name path)).2) := by
    intro realpath images name path hne
    simp only [Cli.applyImageOverrides, List.isEmpty_cons, Bool.false_eq_true, if_false,
      List.foldl_cons, List.foldl_nil]
    rw [if_neg (by simp [List.isEmpty_iff, hne])]
    simp
  have hmissing : ∀ (realpath : String → String) (images : List (String × String))
      (name path : String), images ≠ [] →
      images.any (fun e => e.1 = name) = false →
      Cli.applyImageOverrides realpath images [.named name path]
        = (images, [.overrideIgnored name]) := by
    intro realpath images name path hne hmiss
    rw [hone realpath images name path hne]
    simp [Cli.applyOverride, hmiss]
  refine ⟨?_, hmissing, ?_, ?_⟩
  · intro realpath images ovs
    unfold Cli.applyImageOverrides
    split
    · rfl
    · split
      · rfl
      · exact hfold realpath ovs (images, [])
  · intro realpath images name path hne hhit
    rw [hone realpath images name path hne]
    simp [Cli.applyOverride, hhit]
  · intro realpath data set_name sel imgs icfg name path htd hlook hsel hnorm hne hmiss
    have hov := hmissing realpath imgs name path hne hmiss
    simp [Cli.loadImages, htd, hlook, hsel, hnorm, hov]

/-- Witness for the amended C5 theorem: concrete missing-name and
existing-name overrides. -/
theorem image_override_semantics_witness :
    Cli.applyImageOverrides id [("barebox", "/a")] [.named "missing" "/b"]
      = ([("barebox", "/a")], [.overrideIgnored "missing"])
    ∧ Cli.applyImageOverrides id [("barebox", "/a"), ("tiboot3", "/t")]
        [.named "barebox" "/new"]
      = ([("barebox", "/a"), ("tiboot3", "/t")].map
          (fun e => if e.1 = "barebox" then (e.1, id "/new") else e), [])
    ∧ Cli.loadImages id ⟨some [("default", [("barebox", .path "/a")])], none⟩ "default"
        [.named "missing" "/b"]
      = .ok ([("barebox", "/a")], [("barebox", ⟨none, none⟩)],
          [.overrideIgnored "missing"]) :=
  ⟨image_override_semantics.2.1 id [("barebox", "/a")] "missing" "/b"
      (by decide) (by decide),
    image_override_semantics.2.2.1 id [("barebox", "/a"), ("tiboot3", "/t")]
      "barebox" "/new" (by decide) (by decide),
    image_override_semantics.2.2.2 id
      ⟨some [("default", [("barebox", .path "/a")])], none⟩ "default"
      [("barebox", .path "/a")] [("barebox", "/a")] [("barebox", ⟨none, none⟩)]
      "missing" "/b" rfl rfl rfl rfl (by decide) (by decide)⟩

namespace Cli

/-- Was a cleanup step attempted in a cleanup run? -/
def stepAttempted (tr : List (CStep × Bool)) (st : CStep) : Bool :=
  tr.any (fun x => x.1 == st)

@[simp] theorem stepAttempted_nil (st : CStep) : stepAttempted [] st = false := rfl

@[simp] theorem stepAttempted_append (a b : List (CStep × Bool)) (st : CStep) :
    stepAttempted (a ++ b) st = (stepAttempted a st || stepAttempted b st) := by
  simp [stepAttempted]

@[simp] theorem stepAttempted_cons (q : CStep × Bool) (tr : List (CStep × Bool)) (st : CStep) :
    stepAttempted (q :: tr) st = ((q.1 == st) || stepAttempted tr st) := by
  simp [stepAttempted]

@[simp] theorem stepAttempted_ite (c : Prop) [Decidable c] (l1 l2 : List (CStep × Bool))
    (st : CStep) :
    stepAttempted (if c then l1 else l2) st
      = if c then stepAttempted l1 st else stepAttempted l2 st := by
  split <;> rfl

end Cli

/-- C9: during teardown the place lease release is attempted exactly when
this process acquired the place (given main's invariant that an acquired
place implies a live session, loop and place name); for every failure
oracle - in particular when the strategy power-off or the direct
power-off raises - the session stop and the release are still attempted
(and the close too, unless stop itself raised, which the source skips
because stop and close share one try block); and no cleanup failure
changes the exit code the main operation determined. -/
theorem cleanup_release_iff_acquired :
    (∀ (ctx : Cli.CleanupCtx) (fails : Cli.CStep → Bool),
      (ctx.place_acquired = true →
        ctx.session = true ∧ ctx.hasLoop = true ∧ ctx.place_name.isSome = true) →
      Cli.stepAttempted (Cli.cleanup_resources ctx fails) .releasePlace = ctx.place_acquired)
    ∧ (∀ (ctx : Cli.CleanupCtx) (fails : Cli.CStep → Bool),
        ctx.session = true → ctx.hasLoop = true →
        Cli.stepAttempted (Cli.cleanup_resources ctx fails) .sessionStop = true
        ∧ (fails .sessionStop = false →
            Cli.stepAttempted (Cli.cleanup_resources ctx fails) .sessionClose = true)
        ∧ (ctx.place_acquired = true → ctx.place_name.isSome = true →
            Cli.stepAttempted (Cli.cleanup_resources ctx fails) .releasePlace = true))
    ∧ (∀ (outcome : Cli.MainOutcome) (ctx : Cli.CleanupCtx)
        (fails fails' : Cli.CStep → Bool),
        Cli.mainExit outcome ctx fails = Cli.mainExit outcome ctx fails') := by
  refine ⟨?_, ?_, ?_⟩
  · intro ctx fails hinv
    by_cases hacq : ctx.place_acquired = true
    · obtain ⟨h1, h2, h3⟩ := hinv hacq
      simp [Cli.cleanup_resources, h1, h2, h3, hacq]
    · have hacq' : ctx.place_acquired = false := by simpa using hacq
      simp [Cli.cleanup_resources, hacq']
  · intro ctx fails h1 h2
    refine ⟨?_, ?_, ?_⟩
    · simp [Cli.cleanup_resources, h1, h2]
    · intro hs
      simp [Cli.cleanup_resources, h1, h2, hs]
    · intro hacq hpn
      simp [Cli.cleanup_resources, h1, h2, hacq, hpn]
  · intro outcome ctx fails fails'
    rfl

/-- Witness for C9: a fully-populated context whose power-off steps both
fail still attempts the release, stop and close, and the exit code is
unchanged by the failures. -/
theorem cleanup_release_iff_acquired_witness :
    Cli.stepAttempted
        (Cli.cleanup_resources
          ⟨true, true, true, true, some "board1", true, true, true, true, some "/tmp/f",
            true, true⟩
          (fun st => match st with
            | .strategyOff => true
            | .powerOffDirect => true
            | _ => false))
        .releasePlace
      = (⟨true, true, true, true, some "board1", true, true, true, true, some "/tmp/f",
          true, true⟩ : Cli.CleanupCtx).place_acquired
    ∧ Cli.stepAttempted
        (Cli.cleanup_resources
          ⟨true, true, true, true, some "board1", true, true, true, true, some "/tmp/f",
            true, true⟩
          (fun st => match st with
            | .strategyOff => true
            | .powerOffDirect => true
            | _ => false))
        .sessionStop = true
    ∧ Cli.mainExit .interrupted
        ⟨true, true, true, true, some "board1", true, true, true, true, some "/tmp/f",
          true, true⟩
        (fun st => match st with
          | .strategyOff => true
          | .powerOffDirect => true
          | _ => false)
      = Cli.mainExit .interrupted
        ⟨true, true, true, true, some "board1", true, true, true, true, some "/tmp/f",
          true, true⟩ (fun _ => false) :=
  ⟨cleanup_release_iff_acquired.1
      ⟨true, true, true, true, some "board1", true, true, true, true, some "/tmp/f",
        true, true⟩
      (fun st => match st with
        | .strategyOff => true
        | .powerOffDirect => true
        | _ => false)
      (by decide),
    (cleanup_release_iff_acquired.2.1
      ⟨true, true, true, true, some "board1", true, true, true, true, some "/tmp/f",
        true, true⟩
      (fun st => match st with
        | .strategyOff => true
        | .powerOffDirect => true
        | _ => false)
      rfl rfl).1,
    cleanup_release_iff_acquired.2.2 .interrupted
      ⟨true, true, true, true, some "board1", true, true, true, true, some "/tmp/f",
        true, true⟩
      (fun st => match st with
        | .strategyOff => true
        | .powerOffDirect => true
        | _ => false)
      (fun _ => false)⟩

/-- C10: on both strategies, a transition call that raises leaves the
status either unchanged or at a completed prerequisite of the requested
target (`off` for an `on` request, `off` or `on` for a `barebox`
request), and in particular the status equals the requested target only
when it already did before the call - a failed transition never assigns
the target. -/
theorem transition_failure_never_assigns_target :
    (∀ (cfg : Config) (fails : HwAction → Bool) (s : SDMux.SDMuxState)
        (t : SDMux.SDMuxStatus), (SDMux.transition cfg fails s t).raised = true →
      ((SDMux.transition cfg fails s t).state.status = s.status ∨
        (t = .on ∧ (SDMux.transition cfg fails s t).state.status = .off) ∨
        (t = .barebox ∧ ((SDMux.transition cfg fails s t).state.status = .off ∨
          (SDMux.transition cfg fails s t).state.status = .on)))
      ∧ ((SDMux.transition cfg fails s t).state.status = t → s.status = t))
    ∧ (∀ (cfg : Config) (fails : HwAction → Bool) (s : BStrap.BootstrapState)
        (t : BStrap.BootstrapStatus), (BStrap.transition cfg fails s t).raised = true →
      ((BStrap.transition cfg fails s t).state.status = s.status ∨
        (t = .on ∧ (BStrap.transition cfg fails s t).state.status = .off) ∨
        (t = .barebox ∧ ((BStrap.transition cfg fails s t).state.status = .off ∨
          (BStrap.transition cfg fails s t).state.status = .on)))
      ∧ ((BStrap.transition cfg fails s t).state.status = t → s.status = t)) := by
  constructor
  · intro cfg fails s t hr
    have h1 := (SDMux.transition_char cfg fails s t).1 hr
    refine ⟨h1, ?_⟩
    intro heq
    rcases h1 with h | ⟨ht, h⟩ | ⟨ht, h | h⟩
    · rw [h] at heq
      exact heq
    · subst ht
      rw [h] at heq
      exact absurd heq (by decide)
    · subst ht
      rw [h] at heq
      exact absurd heq (by decide)
    · subst ht
      rw [h] at heq
      exact absurd heq (by decide)
  · intro cfg fails s t hr
    have h1 := (BStrap.bs_transition_char cfg fails s t).1 hr
    refine ⟨h1, ?_⟩
    intro heq
    rcases h1 with h | ⟨ht, h⟩ | ⟨ht, h | h⟩
    · rw [h] at heq
      exact heq
    · subst ht
      rw [h] at heq
      exact absurd heq (by decide)
    · subst ht
      rw [h] at heq
      exact absurd heq (by decide)
    · subst ht
      rw [h] at heq
      exact absurd heq (by decide)

/-- Witness for C10: a power-off failure mid `on` transition on both
strategies leaves the status away from the requested target. -/
theorem transition_failure_never_assigns_target_witness :
    (((SDMux.transition ⟨false, [("b", "/i")], []⟩
          (fun a => match a with | HwAction.powerOff => true | _ => false)
          ⟨.unknown, false⟩ .on).state.status
          = (⟨.unknown, false⟩ : SDMux.SDMuxState).status ∨
        (SDMux.SDMuxStatus.on = .on ∧ (SDMux.transition ⟨false, [("b", "/i")], []⟩
          (fun a => match a with | HwAction.powerOff => true | _ => false)
          ⟨.unknown, false⟩ .on).state.status = .off) ∨
        (SDMux.SDMuxStatus.on = .barebox ∧
          ((SDMux.transition ⟨false, [("b", "/i")], []⟩
            (fun a => match a with | HwAction.powerOff => true | _ => false)
            ⟨.unknown, false⟩ .on).state.status = .off ∨
          (SDMux.transition ⟨false, [("b", "/i")], []⟩
            (fun a => match a with | HwAction.powerOff => true | _ => false)
            ⟨.unknown, false⟩ .on).state.status = .on)))
      ∧ ((SDMux.transition ⟨false, [("b", "/i")], []⟩
          (fun a => match a with | HwAction.powerOff => true | _ => false)
          ⟨.unknown, false⟩ .on).state.status = .on →
        (⟨.unknown, false⟩ : SDMux.SDMuxState).status = .on))
    ∧ (((BStrap.transition ⟨false, [("b", "/i")], []⟩
          (fun a => match a with | HwAction.powerOff => true | _ => false)
          ⟨.unknown, false⟩ .on).state.status
          = (⟨.unknown, false⟩ : BStrap.BootstrapState).status ∨
        (BStrap.BootstrapStatus.on = .on ∧ (BStrap.transition ⟨false, [("b", "/i")], []⟩
          (fun a => match a with | HwAction.powerOff => true | _ => false)
          ⟨.unknown, false⟩ .on).state.status = .off) ∨
        (BStrap.BootstrapStatus.on = .barebox ∧
          ((BStrap.transition ⟨false, [("b", "/i")], []⟩
            (fun a => match a with | HwAction.powerOff => true | _ => false)
            ⟨.unknown, false⟩ .on).state.status = .off ∨
          (BStrap.transition ⟨false, [("b", "/i")], []⟩
            (fun a => match a with | HwAction.powerOff => true | _ => false)
            ⟨.unknown, false⟩ .on).state.status = .on)))
      ∧ ((BStrap.transition ⟨false, [("b", "/i")], []⟩
          (fun a => match a with | HwAction.powerOff => true | _ => false)
          ⟨.unknown, false⟩ .on).state.status = .on →
        (⟨.unknown, false⟩ : BStrap.BootstrapState).status = .on)) :=
  ⟨transition_failure_never_assigns_target.1 ⟨false, [("b", "/i")], []⟩
      (fun a => match a with | HwAction.powerOff => true | _ => false)
      ⟨.unknown, false⟩ .on (by decide),
    transition_failure_never_assigns_target.2 ⟨false, [("b", "/i")], []⟩
      (fun a => match a with | HwAction.powerOff => true | _ => false)
      ⟨.unknown, false⟩ .on (by decide)⟩
